import Mathlib

/-!
# Verification of the Megaz player core

A shallow embedding of the player state machine, physics integration,
animation clock and layered object scheduler of the Megaz repository
(`src/objects/Player.js`, `src/managers/ObjectSortManager.js`,
`src/utils/constants.js`), together with proofs of the spec's claims
about it.

Numbers that are IEEE doubles in the JavaScript source are modelled as
rationals (`ℚ`); all the operations the embedded code performs on them
(addition, multiplication, division, comparison, `Math.min`, `Math.floor`)
are exact on the inputs involved, except `Math.cos`, which is modelled
exactly at the three angle arguments the player code can produce (see
`mathCos2`).  Observable side effects (calls to
`soundManager.playSound`) are modelled as an event list returned next to
the updated state.  The shared camera scroll offset held by the
`ObjectSortManager` singleton is modelled as the `scrollX/scrollY/scrollZ`
fields of the player state, since the player is its only writer in the
frames considered.  Each comment-delimited block of the source methods
is embedded as its own definition, and the methods are their
compositions, in source order.
-/

set_option maxHeartbeats 2000000

namespace Megaz

/-- `DIRECTION` enum from `src/utils/constants.js`. -/
inductive DIRECTION
  | LEFT
  | RIGHT
  | UP
  | DOWN
deriving DecidableEq

/-- `STATUS` enum from `src/utils/constants.js`. -/
inductive STATUS
  | ATTACKED
  | IDLE
  | WALK
  | DASH
  | DASHEND
  | JUMPSTART
  | JUMPOFF
  | JUMPDOWN
  | WALL
  | DAMAGED
  | A1
  | A2
  | A3
  | FIREATTACK
  | JUMPATTACK
deriving DecidableEq

/-- `POS_STATION` enum from `src/utils/constants.js`. -/
inductive POS_STATION
  | GROUND
  | AIR
  | ATTACH_WALL
deriving DecidableEq

/-- One frame's logical-button snapshot, as read at the top of
`Player.checkInput` via `keyManager.isKeyDown`:
`X` = jump, `Z` = dash, `C` = attack, `V` = fire attack, plus the two
movement arrows. -/
structure Input where
  x : Bool
  z : Bool
  left : Bool
  right : Bool
  c : Bool
  v : Bool
deriving DecidableEq

/-- Sound cue identifiers the player code passes to
`soundManager.playSound`. -/
inductive Cue
  | plat
  | a1
  | sword
  | fire
  | jump
  | dash
deriving DecidableEq

/-- An observable `soundManager.playSound(cue, false, volume)` call. -/
structure SEvent where
  cue : Cue
  volume : ℚ
deriving DecidableEq

/-- The player state: the fields of `Player` (from `Player.js`) that the
simulation logic reads or writes, plus the shared scroll offset
(`ObjectSortManager.scrollOffset`), which the player mutates through
`getScrollOffset`/`setScrollOffset`.  The `jumpFrames` object is
flattened into three fields.  `destroyed` and `active` come from the
`GameObject` base class. -/
structure Player where
  status : STATUS
  direction : DIRECTION
  positionStation : POS_STATION
  x : ℚ
  y : ℚ
  maxYPosition : ℚ
  speed : ℚ
  highSpeed : ℚ
  jumpPower : ℚ
  angle : ℚ
  velocityX : ℚ
  velocityY : ℚ
  gravity : ℚ
  maxFallSpeed : ℚ
  isOnGround : Bool
  canJump : Bool
  jumpKeyWasPressed : Bool
  dashKeyWasPressed : Bool
  isDashing : Bool
  dashDistance : ℚ
  dashSpeed : ℚ
  dashProgress : ℚ
  dashPhase : String
  canDashAgain : Bool
  dashDirection : DIRECTION
  canChangeDashDirection : Bool
  dashEasingStartAcceleration : ℚ
  dashEasingEndDeceleration : ℚ
  dashEasingCurrent : ℚ
  attackTimer : ℚ
  maxAttackDuration : ℚ
  isSuperJumping : Bool
  superJumpVelocityX : ℚ
  superJumpMultiplier : ℚ
  currentAnimation : String
  animationFrame : ℕ
  animationSpeed : ℚ
  frameTime : ℚ
  isSpawning : Bool
  isStarted : Bool
  isControlEnabled : Bool
  isGrounded : Bool
  jumpFramesJumpStart : ℚ
  jumpFramesJumpOff : ℚ
  jumpFramesJumpDown : ℚ
  destroyed : Bool
  active : Bool
  scrollX : ℚ
  scrollY : ℚ
  scrollZ : ℚ
deriving DecidableEq

/-- The `Player` constructor's field values; the scroll fields take the
`ObjectSortManager` constructor's initial offset `(-600, 30, 0)`, and
`isStarted`/`isControlEnabled` the values `Player.initialize` leaves
them with. -/
def Player.init : Player where
  status := STATUS.IDLE
  direction := DIRECTION.RIGHT
  positionStation := POS_STATION.GROUND
  x := 400
  y := 480
  maxYPosition := 480
  speed := 220
  highSpeed := 350
  jumpPower := 15
  angle := 0
  velocityX := 0
  velocityY := 0
  gravity := 300
  maxFallSpeed := 400
  isOnGround := true
  canJump := true
  jumpKeyWasPressed := false
  dashKeyWasPressed := false
  isDashing := false
  dashDistance := 300
  dashSpeed := 350
  dashProgress := 0
  dashPhase := "none"
  canDashAgain := true
  dashDirection := DIRECTION.RIGHT
  canChangeDashDirection := true
  dashEasingStartAcceleration := 2/5
  dashEasingEndDeceleration := 3/5
  dashEasingCurrent := 0
  attackTimer := 0
  maxAttackDuration := 1
  isSuperJumping := false
  superJumpVelocityX := 300
  superJumpMultiplier := 3/2
  currentAnimation := "IDLE"
  animationFrame := 0
  animationSpeed := 5
  frameTime := 0
  isSpawning := false
  isStarted := true
  isControlEnabled := true
  isGrounded := false
  jumpFramesJumpStart := 0
  jumpFramesJumpOff := 0
  jumpFramesJumpDown := 0
  destroyed := false
  active := true
  scrollX := -600
  scrollY := 30
  scrollZ := 0

/-- `Player.isAttacking`. -/
def isAttacking (p : Player) : Prop :=
  p.status = STATUS.A1 ∨ p.status = STATUS.A2 ∨ p.status = STATUS.A3 ∨
    p.status = STATUS.FIREATTACK ∨ p.status = STATUS.JUMPATTACK

instance (p : Player) : Decidable (isAttacking p) := by
  unfold isAttacking; infer_instance

/-- `Player.updateScroll(scrollDelta)`: nudge the shared scroll offset's
x component, but only while the player's x is strictly between 400 and
1200.  The `getScrollOffset`/`setScrollOffset` round trip writes y and z
back unchanged. -/
def updateScroll (scrollDelta : ℚ) (p : Player) : Player :=
  if 400 < p.x ∧ p.x < 1200 then
    { p with scrollX := p.scrollX + scrollDelta }
  else p

/-- `Player.handleWalking(leftKeyDown, rightKeyDown, deltaTime)`.  The
`updateScroll` call happens after `this.x` has been updated. -/
def handleWalking (inp : Input) (dt : ℚ) (p : Player) : Player :=
  if inp.left then
    updateScroll (p.speed * dt)
      { p with direction := DIRECTION.LEFT, status := STATUS.WALK, x := p.x - p.speed * dt }
  else if inp.right then
    updateScroll (-(p.speed * dt))
      { p with direction := DIRECTION.RIGHT, status := STATUS.WALK, x := p.x + p.speed * dt }
  else if p.isOnGround ∧ ¬p.isDashing then
    { p with status := STATUS.IDLE }
  else p

/-- `Player.handleAirMovement(leftKeyDown, rightKeyDown, deltaTime)`:
reduced-speed (×0.7) air control. -/
def handleAirMovement (inp : Input) (dt : ℚ) (p : Player) : Player :=
  if inp.left then
    updateScroll (p.speed * (7/10) * dt)
      { p with direction := DIRECTION.LEFT, x := p.x - p.speed * (7/10) * dt }
  else if inp.right then
    updateScroll (-(p.speed * (7/10) * dt))
      { p with direction := DIRECTION.RIGHT, x := p.x + p.speed * (7/10) * dt }
  else p

/-- Safety-reset block 1 (lines 631-634): X released clears the jump
edge memory and re-opens the jump lock. -/
def srJumpKeyReset (inp : Input) (p : Player) : Player :=
  if ¬inp.x then { p with jumpKeyWasPressed := false, canJump := true } else p

/-- Safety-reset block 2 (lines 636-642): Z released clears the dash
edge memory, and re-opens the dash lock when no dash is active. -/
def srDashKeyReset (inp : Input) (p : Player) : Player :=
  if ¬inp.z then
    let q := { p with dashKeyWasPressed := false }
    if ¬q.isDashing then { q with canDashAgain := true } else q
  else p

/-- Safety-reset block 3 (lines 644-653): force-clear an `isDashing`
flag that contradicts the status. -/
def srDashFix (p : Player) : Player :=
  if p.isDashing ∧ p.status ≠ STATUS.DASH ∧ p.status ≠ STATUS.DASHEND then
    { p with isDashing := false, dashPhase := "none", canDashAgain := true,
             dashDirection := p.direction }
  else p

/-- Safety-reset block 4 (lines 655-665): force a return to IDLE when no
key is held, the status is none of IDLE/WALK/DASH/DASHEND, and the
player is not attacking. -/
def srForceIdle (inp : Input) (p : Player) : Player :=
  if ¬inp.x ∧ ¬inp.z ∧ ¬inp.left ∧ ¬inp.right ∧
      p.status ≠ STATUS.IDLE ∧ p.status ≠ STATUS.WALK ∧
      p.status ≠ STATUS.DASH ∧ p.status ≠ STATUS.DASHEND ∧ ¬isAttacking p then
    { p with status := STATUS.IDLE, canDashAgain := true }
  else p

/-- Section 3 of `Player.checkInput` ("SAFETY RESETS", lines 627-666):
runs only while grounded; its four blocks in source order. -/
def safetyResets (inp : Input) (p : Player) : Player :=
  if p.isOnGround then
    srForceIdle inp (srDashFix (srDashKeyReset inp (srJumpKeyReset inp p)))
  else p

/-- Models `Math.cos(angle * Math.PI / 180 * 2)`, exactly at the three
angle values the player code ever stores in `this.angle` (0, 90 and
120); outside those the value is irrelevant to the embedded program and
is fixed arbitrarily at 1. -/
def mathCos2 (angle : ℚ) : ℚ :=
  if angle = 0 then 1
  else if angle = 90 then -1
  else if angle = 120 then -(1/2)
  else 1

/-- Ground-detection sub-step: the unconditional grounded assignments of
lines 408-410. -/
def gdGrounded (p : Player) : Player :=
  { p with positionStation := POS_STATION.GROUND, isOnGround := true,
           jumpFramesJumpDown := 0 }

/-- Ground-detection sub-step: the landing edge (lines 412-415), state
part. -/
def gdLandFix (p : Player) : Player :=
  if p.isGrounded then p else { p with isGrounded := true }

/-- Ground-detection sub-step: the landing edge (lines 412-415), sound
part. -/
def gdLandEvs (p : Player) : List SEvent :=
  if p.isGrounded then [] else [⟨Cue.plat, 1/2⟩]

/-- Ground-detection sub-step: clear the dash flag when landing in
JUMPDOWN (lines 418-421). -/
def gdClearDash (p : Player) : Player :=
  if p.status = STATUS.JUMPDOWN ∧ p.isDashing then { p with isDashing := false } else p

/-- The ground-detection pass at the top of `Player.checkInput`
(lines 405-426): groundedness is derived from `y >= maxYPosition`; while
grounded the angle is zeroed and the landing edge fires; otherwise the
airborne assignments run. -/
def groundDetect (p : Player) : Player × List SEvent :=
  if p.y ≥ p.maxYPosition then
    (gdClearDash { gdLandFix (gdGrounded p) with angle := 0 }, gdLandEvs (gdGrounded p))
  else
    ({ p with positionStation := POS_STATION.AIR, isOnGround := false, isGrounded := false }, [])

/-- Key-tracking block for X (lines 430-436). -/
def ktJump (inp : Input) (p : Player) : Player :=
  if ¬inp.x then
    let q := { p with jumpKeyWasPressed := false }
    if q.isOnGround then { q with canJump := true } else q
  else p

/-- Key-tracking block for Z (lines 438-443): only reset when not
currently dashing. -/
def ktDash (inp : Input) (p : Player) : Player :=
  if ¬inp.z ∧ ¬p.isDashing then { p with dashKeyWasPressed := false } else p

/-- Section 1 of `Player.checkInput` ("ALWAYS RESET KEY TRACKING FIRST",
lines 428-443). -/
def keyTrackingReset (inp : Input) (p : Player) : Player :=
  ktDash inp (ktJump inp p)

/-- JUMPSTART in-state sub-step (lines 562-571): extra ascent while
`velocityY < 0`, with the clamped vertical camera scroll. -/
def jspAscend (dt : ℚ) (p : Player) : Player :=
  if p.velocityY < 0 then
    { p with y := p.y - p.jumpPower * mathCos2 p.angle,
             scrollY := min (p.scrollY + p.speed * dt) 80,
             isGrounded := false }
  else p

/-- JUMPSTART in-state sub-step (lines 574-577): hand off to JUMPDOWN
once `velocityY >= 0`. -/
def jspToDown (p : Player) : Player :=
  if p.velocityY ≥ 0 then
    { p with status := STATUS.JUMPDOWN, jumpFramesJumpDown := 0 }
  else p

/-- JUMPSTART in-state sub-step (lines 580-585): jump-release hand-off
to JUMPDOWN. -/
def jspRelease (inp : Input) (p : Player) : Player :=
  if ¬inp.x then
    { p with status := STATUS.JUMPDOWN, jumpFramesJumpStart := 0,
             jumpFramesJumpDown := 0, angle := 90 }
  else p

/-- The in-state JUMPSTART block of `Player.checkInput`
(lines 560-586). -/
def jumpStartPhysics (inp : Input) (dt : ℚ) (p : Player) : Player :=
  jspRelease inp (jspToDown (jspAscend dt p))

/-- Section 2 of `Player.checkInput` (the `switch (this.status)` state
machine, lines 445-625).  The returned `Bool` records whether the
JavaScript code issued an early `return` (which skips the safety-reset
section); the event list records the `playSound` calls issued. -/
def stateMachineInput (inp : Input) (dt : ℚ) (p : Player) : Player × List SEvent × Bool :=
  match p.status with
  | STATUS.IDLE | STATUS.WALK =>
    -- Basic attack (ground only)
    if inp.c ∧ p.isOnGround then
      ({ p with animationFrame := 0, status := STATUS.A1, attackTimer := 0 },
       [⟨Cue.a1, 7/10⟩, ⟨Cue.sword, 7/10⟩], true)
    -- Fire attack
    else if inp.v ∧ p.isOnGround then
      ({ p with status := STATUS.FIREATTACK, attackTimer := 0,
                positionStation := POS_STATION.AIR },
       [⟨Cue.fire, 7/10⟩], true)
    -- SUPER JUMP (X + Z simultaneously) - highest priority
    else if inp.x ∧ inp.z ∧ ¬p.jumpKeyWasPressed ∧ ¬p.dashKeyWasPressed ∧
        p.isOnGround ∧ p.canJump ∧ p.canDashAgain then
      ({ p with status := STATUS.JUMPSTART,
                velocityY := -p.jumpPower * 10 * p.superJumpMultiplier,
                velocityX := if p.direction = DIRECTION.RIGHT then p.superJumpVelocityX
                             else -p.superJumpVelocityX,
                isOnGround := false, canJump := false,
                jumpKeyWasPressed := true, dashKeyWasPressed := true,
                positionStation := POS_STATION.AIR, jumpFramesJumpStart := 0,
                animationFrame := 0, isGrounded := false, isSuperJumping := true },
       [⟨Cue.jump, 3/5⟩, ⟨Cue.dash, 2/5⟩], true)
    -- Regular jump
    else if inp.x ∧ ¬p.jumpKeyWasPressed ∧ p.isOnGround ∧ p.canJump then
      ({ p with status := STATUS.JUMPSTART, velocityY := -p.jumpPower * 10,
                isOnGround := false, canJump := false, jumpKeyWasPressed := true,
                positionStation := POS_STATION.AIR, jumpFramesJumpStart := 0,
                animationFrame := 0, isGrounded := false },
       [⟨Cue.jump, 1/2⟩], true)
    -- Dash
    else if inp.z ∧ ¬p.dashKeyWasPressed ∧ p.isOnGround ∧ ¬p.isDashing ∧ p.canDashAgain then
      let p1 := { p with status := STATUS.DASH, isDashing := true, dashProgress := 0,
                         dashPhase := "start", dashKeyWasPressed := true,
                         canDashAgain := false }
      let p2 :=
        if inp.left then { p1 with dashDirection := DIRECTION.LEFT, direction := DIRECTION.LEFT }
        else if inp.right then
          { p1 with dashDirection := DIRECTION.RIGHT, direction := DIRECTION.RIGHT }
        else { p1 with dashDirection := p1.direction }
      (p2, [⟨Cue.dash, 3/5⟩], true)
    else
      (handleWalking inp dt p, [], false)
  | STATUS.JUMPSTART | STATUS.JUMPDOWN =>
    if inp.c then
      ({ p with status := STATUS.JUMPATTACK, attackTimer := 0, angle := 120 },
       [⟨Cue.sword, 7/10⟩], true)
    else
      let p1 := if p.status = STATUS.JUMPSTART then jumpStartPhysics inp dt p else p
      (handleAirMovement inp dt p1, [], false)
  | STATUS.DASH => (p, [], false)
  | STATUS.DASHEND => (p, [], false)
  | STATUS.A1 | STATUS.JUMPATTACK | STATUS.FIREATTACK =>
    let p1 := { p with attackTimer := p.attackTimer + dt }
    let p2 :=
      if p1.attackTimer ≥ p1.maxAttackDuration then
        { p1 with attackTimer := 0,
                  status := if p1.status = STATUS.JUMPATTACK ∧ ¬p1.isOnGround then
                      STATUS.JUMPDOWN
                    else STATUS.IDLE }
      else p1
    (p2, [], false)
  | _ =>
    (if p.positionStation = POS_STATION.AIR then { p with status := STATUS.JUMPDOWN } else p,
     [], false)

/-- `Player.checkInput()`: the per-frame input/state-machine pass.
`dt` is the value `timeManager.getTime()` returns this frame. -/
def checkInput (inp : Input) (dt : ℚ) (p : Player) : Player × List SEvent :=
  if ¬p.isControlEnabled then (p, [])
  else
    let g := groundDetect p
    let p1 := keyTrackingReset inp g.1
    let s := stateMachineInput inp dt p1
    let p2 := if s.2.2 then s.1 else safetyResets inp s.1
    (p2, g.2 ++ s.2.1)

/-- The dash easing factor computed inside `Player.updatePhysics` while
`dashPhase === 'moving'` (lines 777-789): ease-in from 0.3 over the
first `startAcceleration` fraction of progress, full speed in between,
ease-out down to 0.6 over the final `endDeceleration` fraction. -/
def dashEasingFactor (p : Player) : ℚ :=
  if p.dashProgress / p.dashDistance < p.dashEasingStartAcceleration then
    3/10 + p.dashProgress / p.dashDistance / p.dashEasingStartAcceleration * (7/10)
  else if p.dashProgress / p.dashDistance > 1 - p.dashEasingEndDeceleration then
    1 - (p.dashProgress / p.dashDistance - (1 - p.dashEasingEndDeceleration)) /
      p.dashEasingEndDeceleration * (2/5)
  else 1

/-- Dash-moving sub-step (lines 794-808): redirect the dash from held
arrows while `canChangeDashDirection`. -/
def dmsRedirect (inp : Input) (p : Player) : Player :=
  if p.canChangeDashDirection then
    if inp.left ∧ ¬inp.right then
      { p with dashDirection := DIRECTION.LEFT, direction := DIRECTION.LEFT }
    else if inp.right ∧ ¬inp.left then
      { p with dashDirection := DIRECTION.RIGHT, direction := DIRECTION.RIGHT }
    else p
  else p

/-- Dash-moving sub-step (lines 810-817): apply the eased displacement
in the current dash direction, with the camera follow-up (which reads
`this.x` after the update). -/
def dmsMove (dashMovement : ℚ) (p : Player) : Player :=
  if p.dashDirection = DIRECTION.RIGHT then
    updateScroll (-dashMovement) { p with x := p.x + dashMovement }
  else
    updateScroll dashMovement { p with x := p.x - dashMovement }

/-- Dash-moving sub-step (lines 822-826): the early hand-off to DASHEND
at 85% of `dashDistance`. -/
def dmsFinish (p : Player) : Player :=
  if p.dashProgress ≥ p.dashDistance * (85/100) then
    { p with dashPhase := "end", status := STATUS.DASHEND }
  else p

/-- The `dashPhase === 'moving'` arm of the DASH case of
`Player.updatePhysics` (lines 773-827): eased displacement, progress
accumulated from the un-eased `dashSpeed*dt`. -/
def dashMovingStep (inp : Input) (dt : ℚ) (p : Player) : Player :=
  let baseDashMovement := p.dashSpeed * dt
  let dashMovement := baseDashMovement * dashEasingFactor p
  let p2 := dmsMove dashMovement (dmsRedirect inp p)
  dmsFinish { p2 with dashProgress := p2.dashProgress + baseDashMovement }

/-- Physics sub-step (lines 736-744): gravity with terminal-velocity
clamp, only while airborne. -/
def upGravity (dt : ℚ) (p : Player) : Player :=
  if ¬p.isOnGround then
    let vy := p.velocityY + p.gravity * dt
    { p with velocityY := if vy > p.maxFallSpeed then p.maxFallSpeed else vy }
  else p

/-- Physics sub-step (lines 746-764): super-jump horizontal momentum
with 0.98 air drag, camera follow (both sign branches of the source
issue the same call), and the end-of-super-jump check against
`2*jumpPower`. -/
def upSuperJump (dt : ℚ) (p : Player) : Player :=
  if p.isSuperJumping then
    let q1 := { p with x := p.x + p.velocityX * dt }
    let q2 := { q1 with velocityX := q1.velocityX * (98/100) }
    let q3 := updateScroll (-q2.velocityX * dt * (1/2)) q2
    if q3.velocityY > q3.jumpPower * 2 then
      { q3 with isSuperJumping := false, velocityX := q3.velocityX * (1/2) }
    else q3
  else p

/-- Physics sub-step (lines 766-845): the per-status movement switch;
0.8 friction in non-special states. -/
def upStatusSwitch (inp : Input) (dt : ℚ) (p : Player) : Player :=
  match p.status with
  | STATUS.DASH =>
    if p.dashPhase = "start" then p
    else if p.dashPhase = "moving" then dashMovingStep inp dt p
    else p
  | STATUS.DASHEND => p
  | STATUS.JUMPSTART | STATUS.JUMPDOWN => p
  | _ => { p with velocityX := p.velocityX * (4/5) }

/-- Physics sub-step (lines 847-849): integrate the velocities. -/
def upIntegrate (dt : ℚ) (p : Player) : Player :=
  { p with x := p.x + p.velocityX * dt, y := p.y + p.velocityY * dt }

/-- Ground-collision sub-step (lines 858-861): re-open the jump lock on
landing unless the jump key is still held. -/
def upLandCanJump (p : Player) : Player :=
  if ¬p.jumpKeyWasPressed then { p with canJump := true } else p

/-- Ground-collision sub-step (lines 863-867): end a super jump on
landing, halving the horizontal velocity. -/
def upLandSuper (p : Player) : Player :=
  if p.isSuperJumping then
    { p with isSuperJumping := false, velocityX := p.velocityX * (1/2) }
  else p

/-- Ground-collision sub-step (lines 869-875): return to IDLE when
landing from a jump, except during a dash sequence. -/
def upLandIdle (p : Player) : Player :=
  if (p.status = STATUS.JUMPSTART ∨ p.status = STATUS.JUMPDOWN) ∧ ¬p.isDashing then
    { p with status := STATUS.IDLE, isDashing := false, dashPhase := "none" }
  else p

/-- Physics sub-step (lines 851-887): ground collision (clamp to the
ground line, zero the fall velocity, landing effects, and the final
positionStation re-sync), or the airborne assignments with the
JUMPSTART→JUMPDOWN flip once falling. -/
def upGroundCollision (p : Player) : Player :=
  if p.y ≥ p.maxYPosition then
    { upLandIdle (upLandSuper (upLandCanJump
        { p with y := p.maxYPosition, velocityY := 0, isOnGround := true,
                 positionStation := POS_STATION.GROUND })) with
      positionStation := POS_STATION.GROUND }
  else
    let q1 := { p with isOnGround := false, positionStation := POS_STATION.AIR }
    if q1.velocityY > 0 ∧ q1.status = STATUS.JUMPSTART then
      { q1 with status := STATUS.JUMPDOWN }
    else q1

/-- Physics sub-step (lines 889-893): left screen bound. -/
def upBoundLeft (p : Player) : Player :=
  if p.x < 20 then { p with x := 20, velocityX := 0 } else p

/-- Physics sub-step (lines 894-897): right screen bound. -/
def upBoundRight (p : Player) : Player :=
  if p.x > 780 then { p with x := 780, velocityX := 0 } else p

/-- `Player.updatePhysics(deltaTime)` (lines 735-902), as the
composition of its blocks in source order.  (The final transform sync is
presentation-only and has no embedded counterpart.) -/
def updatePhysics (inp : Input) (dt : ℚ) (p : Player) : Player :=
  upBoundRight (upBoundLeft (upGroundCollision (upIntegrate dt
    (upStatusSwitch inp dt (upSuperJump dt (upGravity dt p))))))

/-- One entry of the `Player` animation table (frame count and playback
rate; the texture paths are presentation-only). -/
structure AnimData where
  frames : ℕ
  speed : ℚ
deriving DecidableEq

/-- The static `this.animations` table of `Player`. -/
def animations (name : String) : Option AnimData :=
  if name = "IDLE" then some ⟨5, 1/2⟩
  else if name = "WALK" then some ⟨14, 12⟩
  else if name = "JUMP_START" then some ⟨4, 8⟩
  else if name = "JUMP_DOWN" then some ⟨6, 8⟩
  else if name = "DASH" then some ⟨7, 10⟩
  else if name = "DASH_END" then some ⟨4, 8⟩
  else if name = "ATTACK" then some ⟨7, 12⟩
  else none

/-- The status-to-animation-name switch at the top of
`Player.updateAnimation` (lines 909-943). -/
def targetAnimationFor (s : STATUS) : String :=
  match s with
  | STATUS.IDLE => "IDLE"
  | STATUS.WALK => "WALK"
  | STATUS.DASH => "DASH"
  | STATUS.DASHEND => "DASH_END"
  | STATUS.JUMPSTART => "JUMP_START"
  | STATUS.JUMPDOWN => "JUMP_DOWN"
  | STATUS.A1 => "ATTACK"
  | STATUS.JUMPATTACK => "ATTACK"
  | STATUS.FIREATTACK => "ATTACK"
  | _ => "IDLE"

/-- `Player.changeAnimation(newAnimation)`: switching the active
animation resets the frame index and the fractional counter (the
immediate sprite-frame refresh is presentation-only). -/
def changeAnimation (newAnimation : String) (p : Player) : Player :=
  if p.currentAnimation = newAnimation then p
  else { p with currentAnimation := newAnimation, animationFrame := 0, frameTime := 0 }

/-- The animation-completion handler inside `Player.updateAnimation`
(body of `if (this.frameTime >= animData.frames)`, after the counter
reset; lines 972-1017).  In the DASH_END arm the source checks whether Z
is still held, but both branches assign `dashKeyWasPressed = false`, so
the check has no state effect. -/
def animationCompletion (p : Player) : Player :=
  if p.currentAnimation = "DASH" ∧ p.dashPhase = "start" then
    { p with dashPhase := "moving", dashProgress := 0 }
  else if p.currentAnimation = "DASH_END" ∧ p.dashPhase = "end" then
    { p with isDashing := false, dashPhase := "none", status := STATUS.IDLE,
             canDashAgain := true, dashKeyWasPressed := false,
             dashDirection := p.direction }
  else if p.currentAnimation = "ATTACK" then
    let p1 := { p with attackTimer := 0 }
    if p1.status = STATUS.JUMPATTACK then
      if p1.isOnGround then { p1 with status := STATUS.IDLE }
      else { p1 with status := STATUS.JUMPDOWN }
    else if p1.status = STATUS.FIREATTACK then { p1 with status := STATUS.IDLE }
    else { p1 with status := STATUS.IDLE }
  else p

/-- Animation sub-step (lines 959-963): the early dash hand-off at
frame 4 of the DASH start animation. -/
def uaDashEarly (p : Player) : Player :=
  if p.currentAnimation = "DASH" ∧ p.dashPhase = "start" ∧ p.animationFrame ≥ 4 then
    { p with dashPhase := "moving", dashProgress := 0 }
  else p

/-- Animation sub-step (lines 955-1018), once the counter has crossed 1:
derive the integer frame, take the early dash hand-off, and fire the
completion handler when `frameTime` reaches the frame count (resetting
the counter first). -/
def uaCycle (animData : AnimData) (p : Player) : Player :=
  let p1 := uaDashEarly p
  if p1.frameTime ≥ (animData.frames : ℚ) then
    animationCompletion { p1 with frameTime := 0 }
  else p1

/-- `Player.updateAnimation(deltaTime)` (lines 908-1021). -/
def updateAnimation (dt : ℚ) (p : Player) : Player :=
  let p0 := changeAnimation (targetAnimationFor p.status) p
  match animations p0.currentAnimation with
  | none => p0
  | some animData =>
    let ft := p0.frameTime + animData.speed * dt
    if ft ≥ 1 then
      uaCycle animData
        { p0 with frameTime := ft, animationFrame := (⌊ft⌋).toNat % animData.frames }
    else { p0 with frameTime := ft }

/-- `Player.update(deltaTime)` (lines 309-330): the input pass when
control is enabled, then physics, then animation.  The trailing
`return super.update(deltaTime)` runs `GameObject.update`, whose
`this.updateAnimation(deltaTime)` / `this.updatePhysics(deltaTime)`
calls dispatch dynamically to the *Player* overrides, so — when the
object is active and not destroyed — each source frame runs the
animation pass and the physics pass a second time, in that order.  The
transform/sprite sync and `updateCollisionBox` touch only fields
outside the embedded state slice. -/
def updateFrame (inp : Input) (dt : ℚ) (p : Player) : Player × List SEvent :=
  if p.destroyed then (p, [])
  else
    let c := if p.isControlEnabled then checkInput inp dt p else (p, [])
    let p1 := updateAnimation dt (updatePhysics inp dt c.1)
    if p1.active ∧ ¬p1.destroyed then
      (updatePhysics inp dt (updateAnimation dt p1), c.2)
    else (p1, c.2)

/-- Iterated frames: run `updateFrame` over a list of per-frame
(input, delta) pairs, concatenating the emitted sound events. -/
def runFrames (p : Player) (frames : List (Input × ℚ)) : Player × List SEvent :=
  match frames with
  | [] => (p, [])
  | f :: rest =>
    let r1 := updateFrame f.1 f.2 p
    let r2 := runFrames r1.1 rest
    (r2.1, r1.2 ++ r2.2)

/-- Number of `playSound('jump', ...)` calls in an event trace.  The
player code issues the `jump` cue exactly when one of the two
JUMPSTART-entering transitions (super jump or regular jump) fires. -/
def countJump (evs : List SEvent) : ℕ :=
  (evs.filter (fun e => e.cue = Cue.jump)).length

/-- The slice of `GameObject` state the `ObjectSortManager` reads: the
declared layer id (`sortID`), the `visible`/`destroyed` flags, and an
identity tag standing for object identity. -/
structure GObj where
  sortID : ℤ
  visible : Bool
  destroyed : Bool
  oid : ℕ
deriving DecidableEq

/-- `ObjectSortManager` state: the 20 object layers, the shared scroll
offset, and the `initialized` flag (named `initFlag` here). -/
structure ObjectSortManager where
  objectLayers : List (List GObj)
  scrollOffsetX : ℚ
  scrollOffsetY : ℚ
  scrollOffsetZ : ℚ
  initFlag : Bool
deriving DecidableEq

/-- The `ObjectSortManager` constructor (including `initializeLayers`):
20 empty layers, scroll offset (-600, 30, 0). -/
def ObjectSortManager.mk0 : ObjectSortManager :=
  ⟨List.replicate 20 [], -600, 30, 0, true⟩

/-- `ObjectSortManager.addSortedObject(obj)`: push the object onto the
layer selected by its own `sortID`, refusing out-of-range ids. -/
def addSortedObject (obj : GObj) (m : ObjectSortManager) : ObjectSortManager × Bool :=
  if ¬m.initFlag then (m, false)
  else if 0 ≤ obj.sortID ∧ obj.sortID < (m.objectLayers.length : ℤ) then
    let i := obj.sortID.toNat
    ({ m with objectLayers := m.objectLayers.set i (m.objectLayers.getD i [] ++ [obj]) }, true)
  else (m, false)

/-- The per-object guard of the render loop: `obj.visible &&
!obj.isDestroyed()`. -/
def renderable (o : GObj) : Bool := o.visible ∧ ¬o.destroyed

/-- The visit order of `ObjectSortManager.renderObjects()`: the sequence
of objects on which `render()` is invoked — layers in ascending index
order, insertion order within a layer, only visible non-destroyed
objects. -/
def renderOrder (m : ObjectSortManager) : List GObj :=
  if ¬m.initFlag then []
  else (m.objectLayers.map (fun layer => layer.filter renderable)).flatten

/-- `a` is visited strictly before `b` in the list `l`. -/
def visitedBefore (a b : GObj) (l : List GObj) : Prop :=
  ∃ l₁ l₂ l₃, l = l₁ ++ a :: (l₂ ++ b :: l₃)

/-! ## Concrete fixtures used by witnesses and counterexamples -/

/-- No button held. -/
def inputNone : Input := ⟨false, false, false, false, false, false⟩

/-- Only the jump button (X) held. -/
def inputJump : Input := ⟨true, false, false, false, false, false⟩

/-- Jump and dash (X and Z) held together. -/
def inputJumpDash : Input := ⟨true, true, false, false, false, false⟩

/-- Only the fire-attack button (V) held. -/
def inputFire : Input := ⟨false, false, false, false, false, true⟩

/-- A grounded player carrying a stale `isDashing` flag in IDLE. -/
def stuckDashPlayer : Player := { Player.init with isDashing := true }

/-- An airborne player stalled in A1 with the attack timer at the
bound. -/
def stalledAttackPlayer : Player :=
  { Player.init with status := STATUS.A1, y := 400, isOnGround := false,
                     positionStation := POS_STATION.AIR, attackTimer := 1 }

/-- A grounded player in the moving phase of a dash. -/
def movingDashPlayer : Player :=
  { Player.init with status := STATUS.DASH, isDashing := true, dashPhase := "moving",
                     canDashAgain := false, dashKeyWasPressed := true }

/-- A grounded player at the start of a DASHEND pose. -/
def dashEndPlayer : Player :=
  { Player.init with status := STATUS.DASHEND, isDashing := true, dashPhase := "end",
                     canDashAgain := false, dashKeyWasPressed := true }

/-- A player inside the camera window (400 < x < 1200). -/
def windowPlayer : Player := { Player.init with x := 500 }

/-- Scheduler fixtures: three entities declaring layers 2, 0 and 2. -/
def gobjA : GObj := ⟨2, true, false, 1⟩

/-- Second scheduler fixture (layer 0). -/
def gobjB : GObj := ⟨0, true, false, 2⟩

/-- Third scheduler fixture (layer 2). -/
def gobjC : GObj := ⟨2, true, false, 3⟩

/-- The manager after inserting `gobjA`, `gobjB`, `gobjC` in that
order. -/
def schedFixture : ObjectSortManager :=
  (addSortedObject gobjC (addSortedObject gobjB
    (addSortedObject gobjA ObjectSortManager.mk0).1).1).1

end Megaz

namespace Megaz

/-! ## Helper lemmas: field preservation of the embedded sub-steps -/

lemma updateScroll_jumpKey (d : ℚ) (p : Player) :
    (updateScroll d p).jumpKeyWasPressed = p.jumpKeyWasPressed := by
  unfold updateScroll; split_ifs <;> rfl

lemma hw_jumpKey (inp : Input) (dt : ℚ) (p : Player) :
    (handleWalking inp dt p).jumpKeyWasPressed = p.jumpKeyWasPressed := by
  unfold handleWalking updateScroll; split_ifs <;> rfl

lemma ha_jumpKey (inp : Input) (dt : ℚ) (p : Player) :
    (handleAirMovement inp dt p).jumpKeyWasPressed = p.jumpKeyWasPressed := by
  unfold handleAirMovement updateScroll; split_ifs <;> rfl

lemma jsp_jumpKey (inp : Input) (dt : ℚ) (p : Player) :
    (jumpStartPhysics inp dt p).jumpKeyWasPressed = p.jumpKeyWasPressed := by
  unfold jumpStartPhysics jspRelease jspToDown jspAscend; split_ifs <;> rfl

lemma gd_jumpKey (p : Player) :
    (groundDetect p).1.jumpKeyWasPressed = p.jumpKeyWasPressed := by
  unfold groundDetect gdClearDash gdLandFix gdGrounded; split_ifs <;> rfl

lemma gd_countJump (p : Player) : countJump (groundDetect p).2 = 0 := by
  unfold groundDetect gdLandEvs gdGrounded countJump; split_ifs <;> rfl

lemma countJump_append (a b : List SEvent) :
    countJump (a ++ b) = countJump a + countJump b := by
  unfold countJump; rw [List.filter_append, List.length_append]

lemma ktJump_of_x (inp : Input) (p : Player) (hx : inp.x = true) :
    ktJump inp p = p := by
  unfold ktJump; simp [hx]

lemma ktDash_jumpKey (inp : Input) (p : Player) :
    (ktDash inp p).jumpKeyWasPressed = p.jumpKeyWasPressed := by
  unfold ktDash; split_ifs <;> rfl

lemma kt_jumpKey_of_x (inp : Input) (p : Player) (hx : inp.x = true) :
    (keyTrackingReset inp p).jumpKeyWasPressed = p.jumpKeyWasPressed := by
  unfold keyTrackingReset; rw [ktJump_of_x inp p hx, ktDash_jumpKey]

lemma srJumpKeyReset_of_x (inp : Input) (p : Player) (hx : inp.x = true) :
    srJumpKeyReset inp p = p := by
  unfold srJumpKeyReset; simp [hx]

lemma srDashKeyReset_jumpKey (inp : Input) (p : Player) :
    (srDashKeyReset inp p).jumpKeyWasPressed = p.jumpKeyWasPressed := by
  unfold srDashKeyReset; dsimp only; split_ifs <;> rfl

lemma srDashFix_jumpKey (p : Player) :
    (srDashFix p).jumpKeyWasPressed = p.jumpKeyWasPressed := by
  unfold srDashFix; split_ifs <;> rfl

lemma srForceIdle_jumpKey (inp : Input) (p : Player) :
    (srForceIdle inp p).jumpKeyWasPressed = p.jumpKeyWasPressed := by
  unfold srForceIdle; split_ifs <;> rfl

lemma sr_jumpKey_of_x (inp : Input) (p : Player) (hx : inp.x = true) :
    (safetyResets inp p).jumpKeyWasPressed = p.jumpKeyWasPressed := by
  unfold safetyResets
  split_ifs <;>
    simp [srForceIdle_jumpKey, srDashFix_jumpKey, srDashKeyReset_jumpKey,
      srJumpKeyReset_of_x inp p hx]

lemma dmsRedirect_jumpKey (inp : Input) (p : Player) :
    (dmsRedirect inp p).jumpKeyWasPressed = p.jumpKeyWasPressed := by
  unfold dmsRedirect; split_ifs <;> rfl

lemma dmsMove_jumpKey (d : ℚ) (p : Player) :
    (dmsMove d p).jumpKeyWasPressed = p.jumpKeyWasPressed := by
  unfold dmsMove updateScroll; split_ifs <;> rfl

lemma dmsFinish_jumpKey (p : Player) :
    (dmsFinish p).jumpKeyWasPressed = p.jumpKeyWasPressed := by
  unfold dmsFinish; split_ifs <;> rfl

lemma dms_jumpKey (inp : Input) (dt : ℚ) (p : Player) :
    (dashMovingStep inp dt p).jumpKeyWasPressed = p.jumpKeyWasPressed := by
  unfold dashMovingStep; dsimp only
  rw [dmsFinish_jumpKey]; dsimp only
  rw [dmsMove_jumpKey, dmsRedirect_jumpKey]

lemma upGravity_jumpKey (dt : ℚ) (p : Player) :
    (upGravity dt p).jumpKeyWasPressed = p.jumpKeyWasPressed := by
  unfold upGravity; split_ifs <;> rfl

lemma upSuperJump_jumpKey (dt : ℚ) (p : Player) :
    (upSuperJump dt p).jumpKeyWasPressed = p.jumpKeyWasPressed := by
  unfold upSuperJump updateScroll; dsimp only; split_ifs <;> rfl

lemma upStatusSwitch_jumpKey (inp : Input) (dt : ℚ) (p : Player) :
    (upStatusSwitch inp dt p).jumpKeyWasPressed = p.jumpKeyWasPressed := by
  unfold upStatusSwitch
  cases p.status <;>
    first
      | rfl
      | (dsimp only; split_ifs <;> simp [dms_jumpKey])

lemma upGroundCollision_jumpKey (p : Player) :
    (upGroundCollision p).jumpKeyWasPressed = p.jumpKeyWasPressed := by
  unfold upGroundCollision upLandIdle upLandSuper upLandCanJump
  dsimp only; split_ifs <;> rfl

lemma upBounds_jumpKey (p : Player) :
    (upBoundRight (upBoundLeft p)).jumpKeyWasPressed = p.jumpKeyWasPressed := by
  unfold upBoundRight upBoundLeft; split_ifs <;> rfl

lemma up_jumpKey (inp : Input) (dt : ℚ) (p : Player) :
    (updatePhysics inp dt p).jumpKeyWasPressed = p.jumpKeyWasPressed := by
  unfold updatePhysics
  rw [upBounds_jumpKey, upGroundCollision_jumpKey]
  show (upIntegrate dt _).jumpKeyWasPressed = _
  unfold upIntegrate; dsimp only
  rw [upStatusSwitch_jumpKey, upSuperJump_jumpKey, upGravity_jumpKey]

lemma ca_jumpKey (s : String) (p : Player) :
    (changeAnimation s p).jumpKeyWasPressed = p.jumpKeyWasPressed := by
  unfold changeAnimation; split_ifs <;> rfl

lemma ac_jumpKey (p : Player) :
    (animationCompletion p).jumpKeyWasPressed = p.jumpKeyWasPressed := by
  unfold animationCompletion; dsimp only; split_ifs <;> rfl

lemma uaDashEarly_jumpKey (p : Player) :
    (uaDashEarly p).jumpKeyWasPressed = p.jumpKeyWasPressed := by
  unfold uaDashEarly; split_ifs <;> rfl

lemma uaCycle_jumpKey (ad : AnimData) (p : Player) :
    (uaCycle ad p).jumpKeyWasPressed = p.jumpKeyWasPressed := by
  unfold uaCycle; dsimp only; split_ifs
  · rw [ac_jumpKey]; exact uaDashEarly_jumpKey p
  · exact uaDashEarly_jumpKey p

lemma ua_jumpKey (dt : ℚ) (p : Player) :
    (updateAnimation dt p).jumpKeyWasPressed = p.jumpKeyWasPressed := by
  have hca := ca_jumpKey (targetAnimationFor p.status) p
  unfold updateAnimation
  dsimp only
  generalize hq : changeAnimation (targetAnimationFor p.status) p = q
  rw [hq] at hca
  split
  · exact hca
  · split_ifs
    · rw [uaCycle_jumpKey]; exact hca
    · exact hca

end Megaz

namespace Megaz

lemma gd_status (p : Player) : (groundDetect p).1.status = p.status := by
  unfold groundDetect gdClearDash gdLandFix gdGrounded; split_ifs <;> rfl

lemma gd_canJump (p : Player) : (groundDetect p).1.canJump = p.canJump := by
  unfold groundDetect gdClearDash gdLandFix gdGrounded; split_ifs <;> rfl

lemma gd_dashKey (p : Player) :
    (groundDetect p).1.dashKeyWasPressed = p.dashKeyWasPressed := by
  unfold groundDetect gdClearDash gdLandFix gdGrounded; split_ifs <;> rfl

lemma gd_isOnGround_of_ground (p : Player) (hg : p.y ≥ p.maxYPosition) :
    (groundDetect p).1.isOnGround = true := by
  unfold groundDetect gdClearDash gdLandFix gdGrounded
  rw [if_pos hg]; split_ifs <;> rfl

lemma kt_status (inp : Input) (p : Player) :
    (keyTrackingReset inp p).status = p.status := by
  unfold keyTrackingReset ktDash ktJump; dsimp only; split_ifs <;> rfl

lemma kt_isOnGround (inp : Input) (p : Player) :
    (keyTrackingReset inp p).isOnGround = p.isOnGround := by
  unfold keyTrackingReset ktDash ktJump; dsimp only; split_ifs <;> rfl

lemma ktDash_canJump (inp : Input) (p : Player) :
    (ktDash inp p).canJump = p.canJump := by
  unfold ktDash; split_ifs <;> rfl

lemma kt_canJump_of_x (inp : Input) (p : Player) (hx : inp.x = true) :
    (keyTrackingReset inp p).canJump = p.canJump := by
  unfold keyTrackingReset; rw [ktJump_of_x inp p hx, ktDash_canJump]

lemma srJumpKeyReset_attackTimer (inp : Input) (p : Player) :
    (srJumpKeyReset inp p).attackTimer = p.attackTimer := by
  unfold srJumpKeyReset; split_ifs <;> rfl

lemma srDashKeyReset_attackTimer (inp : Input) (p : Player) :
    (srDashKeyReset inp p).attackTimer = p.attackTimer := by
  unfold srDashKeyReset; dsimp only; split_ifs <;> rfl

lemma srDashFix_attackTimer (p : Player) :
    (srDashFix p).attackTimer = p.attackTimer := by
  unfold srDashFix; split_ifs <;> rfl

lemma srForceIdle_attackTimer (inp : Input) (p : Player) :
    (srForceIdle inp p).attackTimer = p.attackTimer := by
  unfold srForceIdle; split_ifs <;> rfl

lemma sr_attackTimer (inp : Input) (p : Player) :
    (safetyResets inp p).attackTimer = p.attackTimer := by
  unfold safetyResets; split_ifs <;>
    simp [srForceIdle_attackTimer, srDashFix_attackTimer, srDashKeyReset_attackTimer,
      srJumpKeyReset_attackTimer]

lemma srJumpKeyReset_status (inp : Input) (p : Player) :
    (srJumpKeyReset inp p).status = p.status := by
  unfold srJumpKeyReset; split_ifs <;> rfl

lemma srDashKeyReset_status (inp : Input) (p : Player) :
    (srDashKeyReset inp p).status = p.status := by
  unfold srDashKeyReset; dsimp only; split_ifs <;> rfl

lemma srDashFix_status (p : Player) : (srDashFix p).status = p.status := by
  unfold srDashFix; split_ifs <;> rfl

lemma sr_status_of_IDLE (inp : Input) (p : Player) (h : p.status = STATUS.IDLE) :
    (safetyResets inp p).status = STATUS.IDLE := by
  unfold safetyResets
  split_ifs with hg
  · have h3 : (srDashFix (srDashKeyReset inp (srJumpKeyReset inp p))).status = STATUS.IDLE := by
      rw [srDashFix_status, srDashKeyReset_status, srJumpKeyReset_status]; exact h
    unfold srForceIdle
    rw [if_neg (by simp [h3])]
    exact h3
  · exact h

lemma sr_status_of_attacking (inp : Input) (p : Player) (h : isAttacking p) :
    (safetyResets inp p).status = p.status := by
  unfold safetyResets
  split_ifs with hg
  · have h3 : (srDashFix (srDashKeyReset inp (srJumpKeyReset inp p))).status = p.status := by
      rw [srDashFix_status, srDashKeyReset_status, srJumpKeyReset_status]
    unfold srForceIdle
    rw [if_neg (by simp [h3]; intro _ _ _ _ _ _ _ _; unfold isAttacking at h ⊢; rw [h3]; exact h)]
    exact h3
  · rfl

lemma sr_of_air (inp : Input) (p : Player) (h : p.isOnGround = false) :
    safetyResets inp p = p := by
  unfold safetyResets; rw [if_neg (by simp [h])]

end Megaz

namespace Megaz

lemma sm_nojump (inp : Input) (dt : ℚ) (p : Player) (hx : inp.x = true)
    (hz : inp.z = false) (hc : inp.c = false) (hv : inp.v = false)
    (hjk : p.jumpKeyWasPressed = true) :
    (stateMachineInput inp dt p).1.jumpKeyWasPressed = true ∧
      countJump (stateMachineInput inp dt p).2.1 = 0 := by
  cases hs : p.status <;>
    simp [stateMachineInput, hs, hx, hz, hc, hv, hjk, countJump,
      hw_jumpKey, ha_jumpKey, jsp_jumpKey] <;>
    split_ifs <;> simp_all [countJump]

lemma ci_nojump (inp : Input) (dt : ℚ) (p : Player) (hx : inp.x = true)
    (hz : inp.z = false) (hc : inp.c = false) (hv : inp.v = false)
    (hjk : p.jumpKeyWasPressed = true) :
    (checkInput inp dt p).1.jumpKeyWasPressed = true ∧
      countJump (checkInput inp dt p).2 = 0 := by
  unfold checkInput
  split_ifs with hctl
  · dsimp only
    have h1 : (keyTrackingReset inp (groundDetect p).1).jumpKeyWasPressed = true := by
      rw [kt_jumpKey_of_x _ _ hx, gd_jumpKey]; exact hjk
    have h2 := sm_nojump inp dt (keyTrackingReset inp (groundDetect p).1) hx hz hc hv h1
    constructor
    · split_ifs
      · exact h2.1
      · rw [sr_jumpKey_of_x _ _ hx]; exact h2.1
    · rw [countJump_append, gd_countJump, h2.2]
  · exact ⟨hjk, rfl⟩

lemma frame_nojump (inp : Input) (dt : ℚ) (p : Player) (hx : inp.x = true)
    (hz : inp.z = false) (hc : inp.c = false) (hv : inp.v = false)
    (hjk : p.jumpKeyWasPressed = true) :
    (updateFrame inp dt p).1.jumpKeyWasPressed = true ∧
      countJump (updateFrame inp dt p).2 = 0 := by
  unfold updateFrame
  dsimp only
  split_ifs
  · exact ⟨hjk, rfl⟩
  · have h := ci_nojump inp dt p hx hz hc hv hjk
    refine ⟨?_, h.2⟩
    rw [up_jumpKey, ua_jumpKey, ua_jumpKey, up_jumpKey]; exact h.1
  · have h := ci_nojump inp dt p hx hz hc hv hjk
    refine ⟨?_, h.2⟩
    rw [ua_jumpKey, up_jumpKey]; exact h.1
  · refine ⟨?_, rfl⟩
    rw [up_jumpKey, ua_jumpKey, ua_jumpKey, up_jumpKey]; exact hjk
  · refine ⟨?_, rfl⟩
    rw [ua_jumpKey, up_jumpKey]; exact hjk

lemma run_nojump (frames : List (Input × ℚ)) (p : Player)
    (hjk : p.jumpKeyWasPressed = true)
    (hfr : ∀ f ∈ frames, f.1.x = true ∧ f.1.z = false ∧ f.1.c = false ∧ f.1.v = false) :
    (runFrames p frames).1.jumpKeyWasPressed = true ∧
      countJump (runFrames p frames).2 = 0 := by
  induction frames generalizing p with
  | nil => exact ⟨hjk, rfl⟩
  | cons f rest ih =>
    obtain ⟨hfx, hfz, hfc, hfv⟩ := hfr f (List.mem_cons_self f rest)
    have h1 := frame_nojump f.1 f.2 p hfx hfz hfc hfv hjk
    have h2 := ih (updateFrame f.1 f.2 p).1 h1.1 (fun g hg => hfr g (List.mem_cons_of_mem f hg))
    unfold runFrames
    dsimp only
    exact ⟨h2.1, by rw [countJump_append, h1.2, h2.2]⟩

lemma gd_no_jump (p : Player) : ∀ a ∈ (groundDetect p).2, ¬a.cue = Cue.jump := by
  unfold groundDetect gdLandEvs gdGrounded
  split_ifs <;> simp

lemma ci_jump (inp : Input) (dt : ℚ) (p : Player) (hctl : p.isControlEnabled = true)
    (hst : p.status = STATUS.IDLE ∨ p.status = STATUS.WALK)
    (hg : p.y ≥ p.maxYPosition) (hcj : p.canJump = true)
    (hjk : p.jumpKeyWasPressed = false) (hx : inp.x = true) (hz : inp.z = false)
    (hc : inp.c = false) (hv : inp.v = false) :
    (checkInput inp dt p).1.jumpKeyWasPressed = true ∧
      countJump (checkInput inp dt p).2 = 1 := by
  unfold checkInput
  rw [if_neg (by simp [hctl])]
  dsimp only
  have hqs : (keyTrackingReset inp (groundDetect p).1).status = p.status := by
    rw [kt_status, gd_status]
  have hqg : (keyTrackingReset inp (groundDetect p).1).isOnGround = true := by
    rw [kt_isOnGround, gd_isOnGround_of_ground p hg]
  have hqj : (keyTrackingReset inp (groundDetect p).1).jumpKeyWasPressed = false := by
    rw [kt_jumpKey_of_x _ _ hx, gd_jumpKey]; exact hjk
  have hqc : (keyTrackingReset inp (groundDetect p).1).canJump = true := by
    rw [kt_canJump_of_x _ _ hx, gd_canJump]; exact hcj
  rcases hst with hst | hst <;>
    rw [hst] at hqs <;>
    simp [stateMachineInput, hqs, hx, hz, hc, hv, hqj, hqg, hqc, countJump_append,
      gd_countJump, countJump]
  all_goals exact gd_no_jump p

lemma frame_jump (inp : Input) (dt : ℚ) (p : Player) (hd : p.destroyed = false)
    (hctl : p.isControlEnabled = true)
    (hst : p.status = STATUS.IDLE ∨ p.status = STATUS.WALK)
    (hg : p.y ≥ p.maxYPosition) (hcj : p.canJump = true)
    (hjk : p.jumpKeyWasPressed = false) (hx : inp.x = true) (hz : inp.z = false)
    (hc : inp.c = false) (hv : inp.v = false) :
    (updateFrame inp dt p).1.jumpKeyWasPressed = true ∧
      countJump (updateFrame inp dt p).2 = 1 := by
  unfold updateFrame
  dsimp only
  rw [if_neg (by simp [hd]), if_pos hctl]
  have h := ci_jump inp dt p hctl hst hg hcj hjk hx hz hc hv
  split_ifs
  · exact ⟨by rw [up_jumpKey, ua_jumpKey, ua_jumpKey, up_jumpKey]; exact h.1, h.2⟩
  · exact ⟨by rw [ua_jumpKey, up_jumpKey]; exact h.1, h.2⟩

end Megaz

namespace Megaz

/-! ## Claim theorems -/

/-- C10: `Player.updateScroll(scrollDelta)` increments the shared scroll
offset's x component by `scrollDelta` exactly when the player's x lies
in the open interval (400, 1200), and leaves all three scroll components
unchanged otherwise. -/
theorem c10_scrollWindow (p : Player) (d : ℚ) :
    ((400 < p.x ∧ p.x < 1200) →
      (updateScroll d p).scrollX = p.scrollX + d ∧
      (updateScroll d p).scrollY = p.scrollY ∧ (updateScroll d p).scrollZ = p.scrollZ) ∧
    (¬(400 < p.x ∧ p.x < 1200) →
      (updateScroll d p).scrollX = p.scrollX ∧
      (updateScroll d p).scrollY = p.scrollY ∧ (updateScroll d p).scrollZ = p.scrollZ) := by
  refine ⟨fun h => ?_, fun h => ?_⟩ <;> simp [updateScroll, h]

/-- Witness for C10 at concrete players: inside the window (x = 500) the
x offset moves by the delta; at the initial x = 400 (outside the open
window) nothing changes. -/
theorem c10_scrollWindow_witness :
    ((updateScroll 5 windowPlayer).scrollX = windowPlayer.scrollX + 5 ∧
      (updateScroll 5 windowPlayer).scrollY = windowPlayer.scrollY ∧
      (updateScroll 5 windowPlayer).scrollZ = windowPlayer.scrollZ) ∧
    ((updateScroll 5 Player.init).scrollX = Player.init.scrollX ∧
      (updateScroll 5 Player.init).scrollY = Player.init.scrollY ∧
      (updateScroll 5 Player.init).scrollZ = Player.init.scrollZ) :=
  ⟨(c10_scrollWindow windowPlayer 5).1 (by decide),
   (c10_scrollWindow Player.init 5).2 (by decide)⟩

/-- C2: while grounded, after the safety-reset pass runs,
`isDashing = true` implies `status ∈ {DASH, DASHEND}`; and if that
implication is violated on entry, the pass force-corrects it by clearing
`isDashing`, setting `dashPhase` to `'none'` and re-opening the dash
lock. -/
theorem c2_groundedDashInvariant (inp : Input) (p : Player) (hg : p.isOnGround = true) :
    ((safetyResets inp p).isDashing = true →
      (safetyResets inp p).status = STATUS.DASH ∨
        (safetyResets inp p).status = STATUS.DASHEND) ∧
    (p.isDashing = true → p.status ≠ STATUS.DASH → p.status ≠ STATUS.DASHEND →
      (safetyResets inp p).isDashing = false ∧ (safetyResets inp p).dashPhase = "none" ∧
        (safetyResets inp p).canDashAgain = true) := by
  obtain ⟨ix, iz, il, ir, ic, iv⟩ := inp
  cases ix <;> cases iz <;> cases il <;> cases ir <;>
    by_cases hd : p.isDashing = true <;> cases hs : p.status <;>
    simp_all [safetyResets, srForceIdle, srDashFix, srDashKeyReset, srJumpKeyReset,
      isAttacking]

/-- Witness for C2 at a concrete grounded player whose `isDashing` flag
is stale in IDLE. -/
theorem c2_groundedDashInvariant_witness :
    (((safetyResets inputNone stuckDashPlayer).isDashing = true →
      (safetyResets inputNone stuckDashPlayer).status = STATUS.DASH ∨
        (safetyResets inputNone stuckDashPlayer).status = STATUS.DASHEND) ∧
    (stuckDashPlayer.isDashing = true → stuckDashPlayer.status ≠ STATUS.DASH →
      stuckDashPlayer.status ≠ STATUS.DASHEND →
      (safetyResets inputNone stuckDashPlayer).isDashing = false ∧
      (safetyResets inputNone stuckDashPlayer).dashPhase = "none" ∧
        (safetyResets inputNone stuckDashPlayer).canDashAgain = true)) :=
  c2_groundedDashInvariant inputNone stuckDashPlayer rfl

/-- C7: the grounded safety-reset pass is idempotent: running it twice
with the same input snapshot leaves exactly the state the first run
produced. -/
theorem c7_safetyResetsIdempotent (inp : Input) (p : Player) :
    safetyResets inp (safetyResets inp p) = safetyResets inp p := by
  obtain ⟨ix, iz, il, ir, ic, iv⟩ := inp
  cases ix <;> cases iz <;> cases il <;> cases ir <;>
    cases hg : p.isOnGround <;> by_cases hd : p.isDashing = true <;>
    cases hs : p.status <;>
    simp_all [safetyResets, srForceIdle, srDashFix, srDashKeyReset, srJumpKeyReset,
      isAttacking]

/-- C9: from IDLE or WALK, fire-attack input while grounded enters
FIREATTACK, resets the attack timer, forces `positionStation = AIR`,
while the entity stays physically grounded (`isOnGround` stays true and
`y` is unchanged). -/
theorem c9_fireAttackPose (p : Player) (inp : Input) (dt : ℚ)
    (hctl : p.isControlEnabled = true)
    (hst : p.status = STATUS.IDLE ∨ p.status = STATUS.WALK)
    (hv : inp.v = true) (hc : inp.c = false)
    (hg : p.y ≥ p.maxYPosition) :
    (checkInput inp dt p).1.status = STATUS.FIREATTACK ∧
    (checkInput inp dt p).1.attackTimer = 0 ∧
    (checkInput inp dt p).1.positionStation = POS_STATION.AIR ∧
    (checkInput inp dt p).1.isOnGround = true ∧
    (checkInput inp dt p).1.y = p.y := by
  rcases hst with hst | hst <;>
    cases hix : inp.x <;> cases hiz : inp.z <;> cases hgr : p.isGrounded <;>
    by_cases hdash : p.isDashing = true <;>
    simp_all [checkInput, groundDetect, gdGrounded, gdLandFix, gdClearDash, gdLandEvs,
      keyTrackingReset, ktJump, ktDash, stateMachineInput]

/-- Witness for C9 at the initial player with only V held. -/
theorem c9_fireAttackPose_witness :
    (checkInput inputFire (1/60) Player.init).1.status = STATUS.FIREATTACK ∧
    (checkInput inputFire (1/60) Player.init).1.attackTimer = 0 ∧
    (checkInput inputFire (1/60) Player.init).1.positionStation = POS_STATION.AIR ∧
    (checkInput inputFire (1/60) Player.init).1.isOnGround = true ∧
    (checkInput inputFire (1/60) Player.init).1.y = Player.init.y :=
  c9_fireAttackPose Player.init inputFire (1/60) rfl (Or.inl rfl) rfl rfl (by decide)

/-- C1: from IDLE or WALK, simultaneous edge-triggered jump and dash
input while grounded with both locks open takes the super-jump combo:
JUMPSTART with `isSuperJumping = true`, vertical velocity
`-jumpPower*10*1.5`, horizontal velocity `±superJumpVelocityX` by
facing; the result is not a dash (status is JUMPSTART, the dash phase is
untouched), and not a plain jump (the combo flag is set and the vertical
impulse carries the 1.5 factor). -/
theorem c1_superJumpCombo (p : Player) (inp : Input) (dt : ℚ)
    (hctl : p.isControlEnabled = true)
    (hst : p.status = STATUS.IDLE ∨ p.status = STATUS.WALK)
    (hx : inp.x = true) (hz : inp.z = true) (hc : inp.c = false) (hv : inp.v = false)
    (hjk : p.jumpKeyWasPressed = false) (hdk : p.dashKeyWasPressed = false)
    (hg : p.y ≥ p.maxYPosition) (hcj : p.canJump = true) (hcd : p.canDashAgain = true)
    (hm : p.superJumpMultiplier = 3/2) :
    (checkInput inp dt p).1.status = STATUS.JUMPSTART ∧
    (checkInput inp dt p).1.isSuperJumping = true ∧
    (checkInput inp dt p).1.velocityY = -p.jumpPower * 10 * (3/2) ∧
    (p.direction = DIRECTION.RIGHT →
      (checkInput inp dt p).1.velocityX = p.superJumpVelocityX) ∧
    (p.direction = DIRECTION.LEFT →
      (checkInput inp dt p).1.velocityX = -p.superJumpVelocityX) ∧
    (checkInput inp dt p).1.status ≠ STATUS.DASH ∧
    (checkInput inp dt p).1.dashPhase = p.dashPhase := by
  rcases hst with hst | hst <;> cases hgr : p.isGrounded <;>
    simp_all [checkInput, groundDetect, gdGrounded, gdLandFix, gdClearDash, gdLandEvs,
      keyTrackingReset, ktJump, ktDash, stateMachineInput]

/-- Witness for C1 at the initial player with X and Z held together:
status JUMPSTART, combo flag set, velocityY = -225, velocityX = +300
(facing RIGHT). -/
theorem c1_superJumpCombo_witness :
    (checkInput inputJumpDash (1/60) Player.init).1.status = STATUS.JUMPSTART ∧
    (checkInput inputJumpDash (1/60) Player.init).1.isSuperJumping = true ∧
    (checkInput inputJumpDash (1/60) Player.init).1.velocityY =
      -Player.init.jumpPower * 10 * (3/2) ∧
    (Player.init.direction = DIRECTION.RIGHT →
      (checkInput inputJumpDash (1/60) Player.init).1.velocityX =
        Player.init.superJumpVelocityX) ∧
    (Player.init.direction = DIRECTION.LEFT →
      (checkInput inputJumpDash (1/60) Player.init).1.velocityX =
        -Player.init.superJumpVelocityX) ∧
    (checkInput inputJumpDash (1/60) Player.init).1.status ≠ STATUS.DASH ∧
    (checkInput inputJumpDash (1/60) Player.init).1.dashPhase = Player.init.dashPhase :=
  c1_superJumpCombo Player.init inputJumpDash (1/60) rfl (Or.inl rfl) rfl rfl rfl rfl
    rfl rfl (by decide) rfl rfl rfl

/-- C5: holding the jump button over a run of frames starting grounded
in IDLE or WALK with the jump lock open fires exactly one JUMPSTART
transition: the first frame emits exactly one jump cue, and no later
frame of the run emits any, because `jumpKeyWasPressed` is set on the
triggering frame and is only cleared on a frame where the button is
up. -/
theorem c5_jumpEdgeTrigger (p : Player) (i0 : Input) (dt0 : ℚ) (rest : List (Input × ℚ))
    (hd : p.destroyed = false) (hctl : p.isControlEnabled = true)
    (hst : p.status = STATUS.IDLE ∨ p.status = STATUS.WALK)
    (hg : p.y ≥ p.maxYPosition) (hcj : p.canJump = true)
    (hjk : p.jumpKeyWasPressed = false)
    (h0 : i0.x = true ∧ i0.z = false ∧ i0.c = false ∧ i0.v = false)
    (hrest : ∀ f ∈ rest, f.1.x = true ∧ f.1.z = false ∧ f.1.c = false ∧ f.1.v = false) :
    countJump (updateFrame i0 dt0 p).2 = 1 ∧
    countJump (runFrames (updateFrame i0 dt0 p).1 rest).2 = 0 := by
  have h1 := frame_jump i0 dt0 p hd hctl hst hg hcj hjk h0.1 h0.2.1 h0.2.2.1 h0.2.2.2
  exact ⟨h1.2, (run_nojump rest (updateFrame i0 dt0 p).1 h1.1 hrest).2⟩

/-- Witness for C5: two frames of held jump from the initial player —
one jump cue on the first frame, none on the second. -/
theorem c5_jumpEdgeTrigger_witness :
    countJump (updateFrame inputJump (1/60) Player.init).2 = 1 ∧
    countJump (runFrames (updateFrame inputJump (1/60) Player.init).1
      [(inputJump, 1/60)]).2 = 0 :=
  c5_jumpEdgeTrigger Player.init inputJump (1/60) [(inputJump, 1/60)] rfl rfl
    (Or.inl rfl) (by decide) rfl rfl (by decide) (by decide)

end Megaz

namespace Megaz

lemma gd_attackTimer (p : Player) : (groundDetect p).1.attackTimer = p.attackTimer := by
  unfold groundDetect gdClearDash gdLandFix gdGrounded; split_ifs <;> rfl

lemma gd_maxAttackDuration (p : Player) :
    (groundDetect p).1.maxAttackDuration = p.maxAttackDuration := by
  unfold groundDetect gdClearDash gdLandFix gdGrounded; split_ifs <;> rfl

lemma kt_attackTimer (inp : Input) (p : Player) :
    (keyTrackingReset inp p).attackTimer = p.attackTimer := by
  unfold keyTrackingReset ktDash ktJump; dsimp only; split_ifs <;> rfl

lemma kt_maxAttackDuration (inp : Input) (p : Player) :
    (keyTrackingReset inp p).maxAttackDuration = p.maxAttackDuration := by
  unfold keyTrackingReset ktDash ktJump; dsimp only; split_ifs <;> rfl

lemma gd_isOnGround_of_air (p : Player) (hy : p.y < p.maxYPosition) :
    (groundDetect p).1.isOnGround = false := by
  unfold groundDetect gdClearDash gdLandFix gdGrounded
  rw [if_neg (by simp [not_le.mpr hy])]

lemma sm_attack (inp : Input) (dt : ℚ) (p : Player)
    (hst : p.status = STATUS.A1 ∨ p.status = STATUS.JUMPATTACK ∨
      p.status = STATUS.FIREATTACK) :
    stateMachineInput inp dt p =
      ((if p.attackTimer + dt ≥ p.maxAttackDuration then
        { p with attackTimer := 0,
                 status := if p.status = STATUS.JUMPATTACK ∧ ¬p.isOnGround = true then
                     STATUS.JUMPDOWN
                   else STATUS.IDLE }
       else { p with attackTimer := p.attackTimer + dt }), [], false) := by
  rcases hst with h | h | h <;> simp only [stateMachineInput, h]

/-- C4 (amended): from any attack state the timer accumulates the frame
delta, and on the first frame where it reaches `maxAttackDuration` the
status is force-reverted — to JUMPDOWN when the state is JUMPATTACK and
the entity is airborne, else to IDLE — with the timer reset to 0; below
the bound the timer just accumulates and the status is untouched. -/
theorem c4_attackTimeoutAmended (p : Player) (inp : Input) (dt : ℚ)
    (hctl : p.isControlEnabled = true)
    (hst : p.status = STATUS.A1 ∨ p.status = STATUS.JUMPATTACK ∨
      p.status = STATUS.FIREATTACK) :
    (p.attackTimer + dt ≥ p.maxAttackDuration →
      (checkInput inp dt p).1.attackTimer = 0 ∧
      (checkInput inp dt p).1.status =
        (if p.status = STATUS.JUMPATTACK ∧ p.y < p.maxYPosition then STATUS.JUMPDOWN
         else STATUS.IDLE)) ∧
    (p.attackTimer + dt < p.maxAttackDuration →
      (checkInput inp dt p).1.attackTimer = p.attackTimer + dt ∧
      (checkInput inp dt p).1.status = p.status) := by
  set q := keyTrackingReset inp (groundDetect p).1 with hqdef
  have hq1 : q.status = p.status := by rw [hqdef, kt_status, gd_status]
  have hq2 : q.attackTimer = p.attackTimer := by rw [hqdef, kt_attackTimer, gd_attackTimer]
  have hq3 : q.maxAttackDuration = p.maxAttackDuration := by
    rw [hqdef, kt_maxAttackDuration, gd_maxAttackDuration]
  have hsm := sm_attack inp dt q (by rw [hq1]; exact hst)
  have hci : (checkInput inp dt p).1 = safetyResets inp
      (if q.attackTimer + dt ≥ q.maxAttackDuration then
        { q with attackTimer := 0,
                 status := if q.status = STATUS.JUMPATTACK ∧ ¬q.isOnGround = true then
                     STATUS.JUMPDOWN
                   else STATUS.IDLE }
       else { q with attackTimer := q.attackTimer + dt }) := by
    unfold checkInput
    rw [if_neg (by simp [hctl])]
    dsimp only
    rw [← hqdef, hsm]
    simp
  constructor <;> intro h
  · rw [hci, if_pos (by rw [hq2, hq3]; exact h)]
    refine ⟨by rw [sr_attackTimer], ?_⟩
    rcases le_or_lt p.maxYPosition p.y with hy | hy
    · have hqg : q.isOnGround = true := by
        rw [hqdef, kt_isOnGround]; exact gd_isOnGround_of_ground p hy
      have hite : (if q.status = STATUS.JUMPATTACK ∧ ¬q.isOnGround = true then
          STATUS.JUMPDOWN else STATUS.IDLE) = STATUS.IDLE := by
        rw [if_neg (by rintro ⟨_, hng⟩; rw [hqg] at hng; exact hng rfl)]
      have h2 : (if p.status = STATUS.JUMPATTACK ∧ p.y < p.maxYPosition then
          STATUS.JUMPDOWN else STATUS.IDLE) = STATUS.IDLE := by
        rw [if_neg (by rintro ⟨_, hlt⟩; exact absurd hlt (not_lt.mpr hy))]
      rw [h2]
      apply sr_status_of_IDLE
      exact hite
    · have hqg : q.isOnGround = false := by
        rw [hqdef, kt_isOnGround]; exact gd_isOnGround_of_air p hy
      rcases hst with hst | hst | hst
      · have hite : (if q.status = STATUS.JUMPATTACK ∧ ¬q.isOnGround = true then
            STATUS.JUMPDOWN else STATUS.IDLE) = STATUS.IDLE := by
          rw [if_neg (by rw [hq1, hst]; rintro ⟨hc, _⟩; exact absurd hc (by decide))]
        have h2 : (if p.status = STATUS.JUMPATTACK ∧ p.y < p.maxYPosition then
            STATUS.JUMPDOWN else STATUS.IDLE) = STATUS.IDLE := by
          rw [if_neg (by rw [hst]; rintro ⟨hc, _⟩; exact absurd hc (by decide))]
        rw [h2]
        apply sr_status_of_IDLE
        exact hite
      · have hite : (if q.status = STATUS.JUMPATTACK ∧ ¬q.isOnGround = true then
            STATUS.JUMPDOWN else STATUS.IDLE) = STATUS.JUMPDOWN := by
          rw [if_pos ⟨hq1.trans hst, by simp [hqg]⟩]
        have h2 : (if p.status = STATUS.JUMPATTACK ∧ p.y < p.maxYPosition then
            STATUS.JUMPDOWN else STATUS.IDLE) = STATUS.JUMPDOWN := if_pos ⟨hst, hy⟩
        rw [h2, sr_of_air]
        · exact hite
        · exact hqg
      · have hite : (if q.status = STATUS.JUMPATTACK ∧ ¬q.isOnGround = true then
            STATUS.JUMPDOWN else STATUS.IDLE) = STATUS.IDLE := by
          rw [if_neg (by rw [hq1, hst]; rintro ⟨hc, _⟩; exact absurd hc (by decide))]
        have h2 : (if p.status = STATUS.JUMPATTACK ∧ p.y < p.maxYPosition then
            STATUS.JUMPDOWN else STATUS.IDLE) = STATUS.IDLE := by
          rw [if_neg (by rw [hst]; rintro ⟨hc, _⟩; exact absurd hc (by decide))]
        rw [h2]
        apply sr_status_of_IDLE
        exact hite
  · rw [hci, if_neg (by rw [hq2, hq3]; exact not_le.mpr h)]
    constructor
    · rw [sr_attackTimer]
      show q.attackTimer + dt = p.attackTimer + dt
      rw [hq2]
    · have hatt : isAttacking { q with attackTimer := q.attackTimer + dt } := by
        show q.status = STATUS.A1 ∨ q.status = STATUS.A2 ∨ q.status = STATUS.A3 ∨
          q.status = STATUS.FIREATTACK ∨ q.status = STATUS.JUMPATTACK
        rw [hq1]
        rcases hst with hst | hst | hst <;> simp [hst]
      rw [sr_status_of_attacking _ _ hatt]
      show q.status = p.status
      exact hq1

end Megaz

namespace Megaz

/-- Witness for C4 (amended), timeout side, at a grounded player in A1
whose timer reaches the bound after a 2-second stall. -/
theorem c4_attackTimeoutAmended_witness :
    ((Player.init.attackTimer + 2 ≥ Player.init.maxAttackDuration →
      (checkInput inputNone 2 { Player.init with status := STATUS.A1 }).1.attackTimer
          = 0 ∧
      (checkInput inputNone 2 { Player.init with status := STATUS.A1 }).1.status =
        (if ({ Player.init with status := STATUS.A1 } : Player).status = STATUS.JUMPATTACK ∧
              Player.init.y < Player.init.maxYPosition then STATUS.JUMPDOWN
         else STATUS.IDLE)) ∧
    (Player.init.attackTimer + 2 < Player.init.maxAttackDuration →
      (checkInput inputNone 2 { Player.init with status := STATUS.A1 }).1.attackTimer =
        Player.init.attackTimer + 2 ∧
      (checkInput inputNone 2 { Player.init with status := STATUS.A1 }).1.status =
        ({ Player.init with status := STATUS.A1 } : Player).status)) :=
  c4_attackTimeoutAmended { Player.init with status := STATUS.A1 } inputNone 2 rfl
    (Or.inl rfl)

/-- C4, counterexample to the claim as stated: an airborne stalled A1
attack whose timer reaches the bound reverts to IDLE, not to the
JUMPDOWN the claim prescribes for every airborne attack state — the code
only picks JUMPDOWN for JUMPATTACK. -/
theorem c4_attackTimeoutClaimFalse :
    stalledAttackPlayer.status = STATUS.A1 ∧
    stalledAttackPlayer.y < stalledAttackPlayer.maxYPosition ∧
    stalledAttackPlayer.attackTimer + 1/10 ≥ stalledAttackPlayer.maxAttackDuration ∧
    (checkInput inputNone (1/10) stalledAttackPlayer).1.status = STATUS.IDLE ∧
    STATUS.IDLE ≠ STATUS.JUMPDOWN := by
  refine ⟨rfl, by decide, by norm_num [stalledAttackPlayer, Player.init], ?_, by decide⟩
  norm_num [checkInput, groundDetect, gdGrounded, gdLandFix, gdClearDash, gdLandEvs,
    keyTrackingReset, ktJump, ktDash, stateMachineInput, safetyResets, srForceIdle,
    srDashFix, srDashKeyReset, srJumpKeyReset, isAttacking, stalledAttackPlayer,
    Player.init, inputNone]
  try decide

end Megaz

namespace Megaz

lemma updateScroll_velocityY (d : ℚ) (p : Player) :
    (updateScroll d p).velocityY = p.velocityY := by
  unfold updateScroll; split_ifs <;> rfl

lemma upSuperJump_velocityY (dt : ℚ) (p : Player) :
    (upSuperJump dt p).velocityY = p.velocityY := by
  unfold upSuperJump updateScroll; dsimp only; split_ifs <;> rfl

lemma dmsRedirect_velocityY (inp : Input) (p : Player) :
    (dmsRedirect inp p).velocityY = p.velocityY := by
  unfold dmsRedirect; split_ifs <;> rfl

lemma dmsMove_velocityY (d : ℚ) (p : Player) :
    (dmsMove d p).velocityY = p.velocityY := by
  unfold dmsMove updateScroll; split_ifs <;> rfl

lemma dmsFinish_velocityY (p : Player) : (dmsFinish p).velocityY = p.velocityY := by
  unfold dmsFinish; split_ifs <;> rfl

lemma dms_velocityY (inp : Input) (dt : ℚ) (p : Player) :
    (dashMovingStep inp dt p).velocityY = p.velocityY := by
  unfold dashMovingStep; dsimp only
  rw [dmsFinish_velocityY]; dsimp only
  rw [dmsMove_velocityY, dmsRedirect_velocityY]

lemma upStatusSwitch_velocityY (inp : Input) (dt : ℚ) (p : Player) :
    (upStatusSwitch inp dt p).velocityY = p.velocityY := by
  unfold upStatusSwitch
  cases p.status <;>
    first
      | rfl
      | (dsimp only; split_ifs <;> simp [dms_velocityY])

lemma upLandCanJump_velocityY (p : Player) :
    (upLandCanJump p).velocityY = p.velocityY := by
  unfold upLandCanJump; split_ifs <;> rfl

lemma upLandSuper_velocityY (p : Player) :
    (upLandSuper p).velocityY = p.velocityY := by
  unfold upLandSuper; split_ifs <;> rfl

lemma upLandIdle_velocityY (p : Player) :
    (upLandIdle p).velocityY = p.velocityY := by
  unfold upLandIdle; split_ifs <;> rfl

lemma upLandCanJump_isOnGround (p : Player) :
    (upLandCanJump p).isOnGround = p.isOnGround := by
  unfold upLandCanJump; split_ifs <;> rfl

lemma upLandSuper_isOnGround (p : Player) :
    (upLandSuper p).isOnGround = p.isOnGround := by
  unfold upLandSuper; split_ifs <;> rfl

lemma upLandIdle_isOnGround (p : Player) :
    (upLandIdle p).isOnGround = p.isOnGround := by
  unfold upLandIdle; split_ifs <;> rfl

lemma upGC_velocityY (p : Player) :
    (upGroundCollision p).velocityY = 0 ∨ (upGroundCollision p).velocityY = p.velocityY := by
  unfold upGroundCollision
  split_ifs
  · left
    dsimp only
    rw [upLandIdle_velocityY, upLandSuper_velocityY, upLandCanJump_velocityY]
  · right
    dsimp only
    split_ifs <;> rfl

lemma upGC_ground_velocityY (p : Player) (h : (upGroundCollision p).isOnGround = true) :
    (upGroundCollision p).velocityY = 0 := by
  unfold upGroundCollision at h ⊢
  split_ifs at h ⊢
  · dsimp only
    rw [upLandIdle_velocityY, upLandSuper_velocityY, upLandCanJump_velocityY]
  · dsimp only at h ⊢
    split_ifs at h ⊢

lemma upBoundLeft_velocityY (p : Player) :
    (upBoundLeft p).velocityY = p.velocityY := by
  unfold upBoundLeft; split_ifs <;> rfl

lemma upBoundRight_velocityY (p : Player) :
    (upBoundRight p).velocityY = p.velocityY := by
  unfold upBoundRight; split_ifs <;> rfl

lemma upBoundLeft_isOnGround (p : Player) :
    (upBoundLeft p).isOnGround = p.isOnGround := by
  unfold upBoundLeft; split_ifs <;> rfl

lemma upBoundRight_isOnGround (p : Player) :
    (upBoundRight p).isOnGround = p.isOnGround := by
  unfold upBoundRight; split_ifs <;> rfl

lemma upGravity_velY_le (dt : ℚ) (p : Player) (hv : p.velocityY ≤ p.maxFallSpeed) :
    (upGravity dt p).velocityY ≤ p.maxFallSpeed := by
  unfold upGravity
  split_ifs
  all_goals
    first
      | exact hv
      | (show (if p.velocityY + p.gravity * dt > p.maxFallSpeed then p.maxFallSpeed
            else p.velocityY + p.gravity * dt) ≤ p.maxFallSpeed
         split_ifs with h2
         · exact le_refl _
         · exact le_of_not_lt h2)

/-- C6: `Player.updatePhysics` never leaves `velocityY` above
`maxFallSpeed` (gravity is integrated only while airborne and clamped),
and every path that ends grounded has set `velocityY` to 0. -/
theorem c6_terminalVelocity (p : Player) (inp : Input) (dt : ℚ)
    (hv : p.velocityY ≤ p.maxFallSpeed) (hm : 0 ≤ p.maxFallSpeed) :
    (updatePhysics inp dt p).velocityY ≤ p.maxFallSpeed ∧
    ((updatePhysics inp dt p).isOnGround = true →
      (updatePhysics inp dt p).velocityY = 0) := by
  unfold updatePhysics
  have hg := upGravity_velY_le dt p hv
  have hsv : (upIntegrate dt (upStatusSwitch inp dt (upSuperJump dt
      (upGravity dt p)))).velocityY = (upGravity dt p).velocityY := by
    unfold upIntegrate
    dsimp only
    rw [upStatusSwitch_velocityY, upSuperJump_velocityY]
  constructor
  · rw [upBoundRight_velocityY, upBoundLeft_velocityY]
    rcases upGC_velocityY (upIntegrate dt (upStatusSwitch inp dt (upSuperJump dt
      (upGravity dt p)))) with h0 | hkeep
    · rw [h0]; exact hm
    · rw [hkeep, hsv]; exact hg
  · intro hgr
    rw [upBoundRight_velocityY, upBoundLeft_velocityY]
    rw [upBoundRight_isOnGround, upBoundLeft_isOnGround] at hgr
    exact upGC_ground_velocityY _ hgr

/-- Witness for C6 at the initial player with no input. -/
theorem c6_terminalVelocity_witness :
    (updatePhysics inputNone (1/60) Player.init).velocityY ≤ Player.init.maxFallSpeed ∧
    ((updatePhysics inputNone (1/60) Player.init).isOnGround = true →
      (updatePhysics inputNone (1/60) Player.init).velocityY = 0) :=
  c6_terminalVelocity Player.init inputNone (1/60) (by decide) (by decide)

end Megaz

namespace Megaz

lemma updateScroll_x (d : ℚ) (p : Player) : (updateScroll d p).x = p.x := by
  unfold updateScroll; split_ifs <;> rfl

lemma dmsRedirect_x (inp : Input) (p : Player) : (dmsRedirect inp p).x = p.x := by
  unfold dmsRedirect; split_ifs <;> rfl

lemma dmsRedirect_dashProgress (inp : Input) (p : Player) :
    (dmsRedirect inp p).dashProgress = p.dashProgress := by
  unfold dmsRedirect; split_ifs <;> rfl

lemma dmsRedirect_dashPhase (inp : Input) (p : Player) :
    (dmsRedirect inp p).dashPhase = p.dashPhase := by
  unfold dmsRedirect; split_ifs <;> rfl

lemma dmsRedirect_status (inp : Input) (p : Player) :
    (dmsRedirect inp p).status = p.status := by
  unfold dmsRedirect; split_ifs <;> rfl

lemma dmsRedirect_velocityX (inp : Input) (p : Player) :
    (dmsRedirect inp p).velocityX = p.velocityX := by
  unfold dmsRedirect; split_ifs <;> rfl

lemma dmsRedirect_dashDistance (inp : Input) (p : Player) :
    (dmsRedirect inp p).dashDistance = p.dashDistance := by
  unfold dmsRedirect; split_ifs <;> rfl

lemma dmsMove_x (d : ℚ) (p : Player) :
    (dmsMove d p).x = p.x + d ∨ (dmsMove d p).x = p.x - d := by
  unfold dmsMove
  split_ifs
  · left; rw [updateScroll_x]
  · right; rw [updateScroll_x]

lemma dmsMove_dashProgress (d : ℚ) (p : Player) :
    (dmsMove d p).dashProgress = p.dashProgress := by
  unfold dmsMove updateScroll; split_ifs <;> rfl

lemma dmsMove_dashPhase (d : ℚ) (p : Player) :
    (dmsMove d p).dashPhase = p.dashPhase := by
  unfold dmsMove updateScroll; split_ifs <;> rfl

lemma dmsMove_status (d : ℚ) (p : Player) : (dmsMove d p).status = p.status := by
  unfold dmsMove updateScroll; split_ifs <;> rfl

lemma dmsMove_velocityX (d : ℚ) (p : Player) : (dmsMove d p).velocityX = p.velocityX := by
  unfold dmsMove updateScroll; split_ifs <;> rfl

lemma dmsMove_dashDistance (d : ℚ) (p : Player) :
    (dmsMove d p).dashDistance = p.dashDistance := by
  unfold dmsMove updateScroll; split_ifs <;> rfl

lemma dmsFinish_x (p : Player) : (dmsFinish p).x = p.x := by
  unfold dmsFinish; split_ifs <;> rfl

lemma dmsFinish_velocityX (p : Player) : (dmsFinish p).velocityX = p.velocityX := by
  unfold dmsFinish; split_ifs <;> rfl

lemma dmsFinish_dashProgress (p : Player) :
    (dmsFinish p).dashProgress = p.dashProgress := by
  unfold dmsFinish; split_ifs <;> rfl

lemma dms_x (inp : Input) (dt : ℚ) (p : Player) :
    (dashMovingStep inp dt p).x = p.x + p.dashSpeed * dt * dashEasingFactor p ∨
    (dashMovingStep inp dt p).x = p.x - p.dashSpeed * dt * dashEasingFactor p := by
  unfold dashMovingStep
  dsimp only
  rw [dmsFinish_x]
  show ((dmsMove (p.dashSpeed * dt * dashEasingFactor p) (dmsRedirect inp p)).x = _ ∨ _)
  rcases dmsMove_x (p.dashSpeed * dt * dashEasingFactor p) (dmsRedirect inp p) with hm | hm
  · left; rw [hm, dmsRedirect_x]
  · right; rw [hm, dmsRedirect_x]

lemma dms_dashProgress (inp : Input) (dt : ℚ) (p : Player) :
    (dashMovingStep inp dt p).dashProgress = p.dashProgress + p.dashSpeed * dt := by
  unfold dashMovingStep
  dsimp only
  rw [dmsFinish_dashProgress]
  show (dmsMove _ (dmsRedirect inp p)).dashProgress + p.dashSpeed * dt = _
  rw [dmsMove_dashProgress, dmsRedirect_dashProgress]

lemma dms_velocityX (inp : Input) (dt : ℚ) (p : Player) :
    (dashMovingStep inp dt p).velocityX = p.velocityX := by
  unfold dashMovingStep
  dsimp only
  rw [dmsFinish_velocityX]
  show (dmsMove _ (dmsRedirect inp p)).velocityX = _
  rw [dmsMove_velocityX, dmsRedirect_velocityX]

lemma dms_phase_status (inp : Input) (dt : ℚ) (p : Player) :
    (p.dashProgress + p.dashSpeed * dt ≥ p.dashDistance * (85/100) →
      (dashMovingStep inp dt p).dashPhase = "end" ∧
      (dashMovingStep inp dt p).status = STATUS.DASHEND) ∧
    (¬(p.dashProgress + p.dashSpeed * dt ≥ p.dashDistance * (85/100)) →
      (dashMovingStep inp dt p).dashPhase = p.dashPhase ∧
      (dashMovingStep inp dt p).status = p.status) := by
  unfold dashMovingStep
  dsimp only
  have hprog : (dmsMove (p.dashSpeed * dt * dashEasingFactor p)
      (dmsRedirect inp p)).dashProgress = p.dashProgress := by
    rw [dmsMove_dashProgress, dmsRedirect_dashProgress]
  have hdist : (dmsMove (p.dashSpeed * dt * dashEasingFactor p)
      (dmsRedirect inp p)).dashDistance = p.dashDistance := by
    rw [dmsMove_dashDistance, dmsRedirect_dashDistance]
  constructor <;> intro h
  · unfold dmsFinish
    rw [if_pos]
    · exact ⟨rfl, rfl⟩
    · show (dmsMove _ (dmsRedirect inp p)).dashProgress + p.dashSpeed * dt ≥
        (dmsMove _ (dmsRedirect inp p)).dashDistance * (85/100)
      rw [hprog, hdist]
      exact h
  · unfold dmsFinish
    rw [if_neg]
    · constructor
      · show (dmsMove _ (dmsRedirect inp p)).dashPhase = p.dashPhase
        rw [dmsMove_dashPhase, dmsRedirect_dashPhase]
      · show (dmsMove _ (dmsRedirect inp p)).status = p.status
        rw [dmsMove_status, dmsRedirect_status]
    · show ¬((dmsMove _ (dmsRedirect inp p)).dashProgress + p.dashSpeed * dt ≥
        (dmsMove _ (dmsRedirect inp p)).dashDistance * (85/100))
      rw [hprog, hdist]
      exact h

end Megaz

namespace Megaz

lemma upGravity_of_ground (dt : ℚ) (p : Player) (h : p.isOnGround = true) :
    upGravity dt p = p := by
  unfold upGravity; rw [if_neg (by simp [h])]

lemma upSuperJump_of_not (dt : ℚ) (p : Player) (h : p.isSuperJumping = false) :
    upSuperJump dt p = p := by
  unfold upSuperJump; rw [if_neg (by simp [h])]

lemma upStatusSwitch_dash_moving (inp : Input) (dt : ℚ) (p : Player)
    (hst : p.status = STATUS.DASH) (hph : p.dashPhase = "moving") :
    upStatusSwitch inp dt p = dashMovingStep inp dt p := by
  unfold upStatusSwitch
  simp [hst, hph]

lemma upStatusSwitch_dashend (inp : Input) (dt : ℚ) (p : Player)
    (hst : p.status = STATUS.DASHEND) :
    upStatusSwitch inp dt p = p := by
  unfold upStatusSwitch
  simp [hst]

lemma upIntegrate_x (dt : ℚ) (p : Player) :
    (upIntegrate dt p).x = p.x + p.velocityX * dt := rfl

lemma upIntegrate_status (dt : ℚ) (p : Player) : (upIntegrate dt p).status = p.status := rfl

lemma upIntegrate_dashPhase (dt : ℚ) (p : Player) :
    (upIntegrate dt p).dashPhase = p.dashPhase := rfl

lemma upIntegrate_dashProgress (dt : ℚ) (p : Player) :
    (upIntegrate dt p).dashProgress = p.dashProgress := rfl

lemma upLandCanJump_x (p : Player) : (upLandCanJump p).x = p.x := by
  unfold upLandCanJump; split_ifs <;> rfl

lemma upLandSuper_x (p : Player) : (upLandSuper p).x = p.x := by
  unfold upLandSuper; split_ifs <;> rfl

lemma upLandIdle_x (p : Player) : (upLandIdle p).x = p.x := by
  unfold upLandIdle; split_ifs <;> rfl

lemma upLandCanJump_status (p : Player) : (upLandCanJump p).status = p.status := by
  unfold upLandCanJump; split_ifs <;> rfl

lemma upLandSuper_status (p : Player) : (upLandSuper p).status = p.status := by
  unfold upLandSuper; split_ifs <;> rfl

lemma upLandCanJump_dashPhase (p : Player) : (upLandCanJump p).dashPhase = p.dashPhase := by
  unfold upLandCanJump; split_ifs <;> rfl

lemma upLandSuper_dashPhase (p : Player) : (upLandSuper p).dashPhase = p.dashPhase := by
  unfold upLandSuper; split_ifs <;> rfl

lemma upLandCanJump_dashProgress (p : Player) :
    (upLandCanJump p).dashProgress = p.dashProgress := by
  unfold upLandCanJump; split_ifs <;> rfl

lemma upLandSuper_dashProgress (p : Player) :
    (upLandSuper p).dashProgress = p.dashProgress := by
  unfold upLandSuper; split_ifs <;> rfl

lemma upLandIdle_dashProgress (p : Player) :
    (upLandIdle p).dashProgress = p.dashProgress := by
  unfold upLandIdle; split_ifs <;> rfl

lemma upLandIdle_of_dash (p : Player)
    (h : p.status = STATUS.DASH ∨ p.status = STATUS.DASHEND) :
    upLandIdle p = p := by
  unfold upLandIdle
  rw [if_neg]
  rcases h with h | h <;> rw [h] <;> rintro ⟨hc | hc, _⟩ <;> exact absurd hc (by decide)

lemma upGC_x (p : Player) : (upGroundCollision p).x = p.x := by
  unfold upGroundCollision
  split_ifs
  · dsimp only
    rw [upLandIdle_x, upLandSuper_x, upLandCanJump_x]
  · dsimp only
    split_ifs <;> rfl

lemma upGC_dashProgress (p : Player) :
    (upGroundCollision p).dashProgress = p.dashProgress := by
  unfold upGroundCollision
  split_ifs
  · dsimp only
    rw [upLandIdle_dashProgress, upLandSuper_dashProgress, upLandCanJump_dashProgress]
  · dsimp only
    split_ifs <;> rfl

lemma upGC_status_dashPhase_of_dash (p : Player)
    (h : p.status = STATUS.DASH ∨ p.status = STATUS.DASHEND) :
    (upGroundCollision p).status = p.status ∧
    (upGroundCollision p).dashPhase = p.dashPhase := by
  unfold upGroundCollision
  split_ifs
  · dsimp only
    have hs : (upLandSuper (upLandCanJump
        { p with y := p.maxYPosition, velocityY := 0, isOnGround := true,
                 positionStation := POS_STATION.GROUND })).status = p.status := by
      rw [upLandSuper_status, upLandCanJump_status]
    rw [upLandIdle_of_dash _ (by rw [hs]; exact h)]
    constructor
    · exact hs
    · rw [upLandSuper_dashPhase, upLandCanJump_dashPhase]
  · dsimp only
    split_ifs with hj
    · rcases h with h | h <;> rw [h] at hj <;> exact absurd hj.2 (by decide)
    · exact ⟨rfl, rfl⟩

lemma upBoundLeft_of_ge (p : Player) (h : 20 ≤ p.x) : upBoundLeft p = p := by
  unfold upBoundLeft; rw [if_neg (not_lt.mpr h)]

lemma upBoundRight_of_le (p : Player) (h : p.x ≤ 780) : upBoundRight p = p := by
  unfold upBoundRight; rw [if_neg (not_lt.mpr h)]

lemma easing_eq (p : Player) (ha : p.dashEasingStartAcceleration = 2/5)
    (hd : p.dashEasingEndDeceleration = 3/5) :
    dashEasingFactor p =
      (if p.dashProgress / p.dashDistance < 2/5 then
        3/10 + p.dashProgress / p.dashDistance / (2/5) * (7/10)
      else if 2/5 < p.dashProgress / p.dashDistance then
        1 - (p.dashProgress / p.dashDistance - 2/5) / (3/5) * (2/5)
      else 1) := by
  unfold dashEasingFactor
  rw [ha, hd]
  norm_num

lemma easing_nonneg (p : Player) (ha : p.dashEasingStartAcceleration = 2/5)
    (hd : p.dashEasingEndDeceleration = 3/5) (h0 : 0 < p.dashDistance)
    (h1 : 0 ≤ p.dashProgress) (h2 : p.dashProgress ≤ p.dashDistance) :
    0 ≤ dashEasingFactor p := by
  have hr0 : 0 ≤ p.dashProgress / p.dashDistance := div_nonneg h1 (le_of_lt h0)
  have hr1 : p.dashProgress / p.dashDistance ≤ 1 := by
    rw [div_le_one h0]; exact h2
  rw [easing_eq p ha hd]
  split_ifs with hA hB
  · have hq : 0 ≤ p.dashProgress / p.dashDistance / (2/5) :=
      div_nonneg hr0 (by norm_num)
    nlinarith
  · have h3 : (p.dashProgress / p.dashDistance - 2/5) / (3/5) ≤ 1 := by
      rw [div_le_one (by norm_num : (0:ℚ) < 3/5)]
      linarith
    have h4 : (p.dashProgress / p.dashDistance - 2/5) / (3/5) * (2/5) ≤ 1 * (2/5) :=
      mul_le_mul_of_nonneg_right h3 (by norm_num)
    linarith
  · norm_num

end Megaz

namespace Megaz

/-- C3: while DASH with `dashPhase = 'moving'`, one physics step moves
the player horizontally by `dashSpeed*dt*easingFactor` (easing ramps
0.3→1.0 over the first 40% of `dashProgress/dashDistance` and down to
0.6 over the final 60%), accumulates the un-eased `dashSpeed*dt` into
`dashProgress`, and hands off to `dashPhase = 'end'` / DASHEND exactly
when the accumulated progress reaches 85% of `dashDistance`; once in
DASHEND the dash contributes no further horizontal displacement. -/
theorem c3_dashEasedMotion :
    (∀ (p : Player) (inp : Input) (dt : ℚ),
      p.status = STATUS.DASH → p.dashPhase = "moving" →
      p.isSuperJumping = false → p.velocityX = 0 → p.isOnGround = true →
      p.dashEasingStartAcceleration = 2/5 → p.dashEasingEndDeceleration = 3/5 →
      0 < p.dashDistance → 0 ≤ p.dashProgress → p.dashProgress ≤ p.dashDistance →
      0 ≤ p.dashSpeed → 0 ≤ dt →
      20 ≤ p.x - p.dashSpeed * dt * dashEasingFactor p →
      p.x + p.dashSpeed * dt * dashEasingFactor p ≤ 780 →
      (|(updatePhysics inp dt p).x - p.x| =
        p.dashSpeed * dt *
          (if p.dashProgress / p.dashDistance < 2/5 then
            3/10 + p.dashProgress / p.dashDistance / (2/5) * (7/10)
          else if 2/5 < p.dashProgress / p.dashDistance then
            1 - (p.dashProgress / p.dashDistance - 2/5) / (3/5) * (2/5)
          else 1)) ∧
      (updatePhysics inp dt p).dashProgress = p.dashProgress + p.dashSpeed * dt ∧
      (p.dashProgress + p.dashSpeed * dt ≥ (85/100) * p.dashDistance →
        (updatePhysics inp dt p).dashPhase = "end" ∧
        (updatePhysics inp dt p).status = STATUS.DASHEND) ∧
      (p.dashProgress + p.dashSpeed * dt < (85/100) * p.dashDistance →
        (updatePhysics inp dt p).dashPhase = "moving" ∧
        (updatePhysics inp dt p).status = STATUS.DASH)) ∧
    (∀ (p : Player) (inp : Input) (dt : ℚ),
      p.status = STATUS.DASHEND → p.isSuperJumping = false → p.velocityX = 0 →
      p.isOnGround = true → 20 ≤ p.x → p.x ≤ 780 →
      (updatePhysics inp dt p).x = p.x) := by
  constructor
  · intro p inp dt hst hph hsj hvx hog ha hd hDpos hPr0 hPrD hSp hdt hlo hhi
    have hups : updatePhysics inp dt p =
        upBoundRight (upBoundLeft (upGroundCollision
          (upIntegrate dt (dashMovingStep inp dt p)))) := by
      unfold updatePhysics
      rw [upGravity_of_ground dt p hog, upSuperJump_of_not dt p hsj,
        upStatusSwitch_dash_moving inp dt p hst hph]
    have hmovnn : 0 ≤ p.dashSpeed * dt * dashEasingFactor p :=
      mul_nonneg (mul_nonneg hSp hdt) (easing_nonneg p ha hd hDpos hPr0 hPrD)
    have hDvx : (dashMovingStep inp dt p).velocityX = 0 := by rw [dms_velocityX, hvx]
    have hIx : (upIntegrate dt (dashMovingStep inp dt p)).x
        = (dashMovingStep inp dt p).x := by
      rw [upIntegrate_x, hDvx, zero_mul, add_zero]
    have hDx := dms_x inp dt p
    have hb1 : 20 ≤ (upGroundCollision (upIntegrate dt (dashMovingStep inp dt p))).x := by
      rw [upGC_x, hIx]
      rcases hDx with hx | hx <;> rw [hx] <;> linarith
    have hb2 : (upGroundCollision (upIntegrate dt (dashMovingStep inp dt p))).x ≤ 780 := by
      rw [upGC_x, hIx]
      rcases hDx with hx | hx <;> rw [hx] <;> linarith
    have hups2 : updatePhysics inp dt p =
        upGroundCollision (upIntegrate dt (dashMovingStep inp dt p)) := by
      rw [hups, upBoundLeft_of_ge _ hb1, upBoundRight_of_le _ hb2]
    refine ⟨?_, ?_, ?_, ?_⟩
    · rw [hups2, upGC_x, hIx, ← easing_eq p ha hd]
      rcases hDx with hx | hx <;> rw [hx]
      · rw [show p.x + p.dashSpeed * dt * dashEasingFactor p - p.x
            = p.dashSpeed * dt * dashEasingFactor p by ring]
        rw [abs_of_nonneg hmovnn]
      · rw [show p.x - p.dashSpeed * dt * dashEasingFactor p - p.x
            = -(p.dashSpeed * dt * dashEasingFactor p) by ring]
        rw [abs_neg, abs_of_nonneg hmovnn]
    · rw [hups2, upGC_dashProgress, upIntegrate_dashProgress, dms_dashProgress]
    · intro h
      have hD := (dms_phase_status inp dt p).1 (by linarith)
      have hGC := upGC_status_dashPhase_of_dash
        (upIntegrate dt (dashMovingStep inp dt p))
        (by rw [upIntegrate_status]; exact Or.inr hD.2)
      rw [hups2]
      exact ⟨by rw [hGC.2, upIntegrate_dashPhase, hD.1],
        by rw [hGC.1, upIntegrate_status, hD.2]⟩
    · intro h
      have hD := (dms_phase_status inp dt p).2 (by intro hc; linarith)
      have hGC := upGC_status_dashPhase_of_dash
        (upIntegrate dt (dashMovingStep inp dt p))
        (by rw [upIntegrate_status, hD.2]; exact Or.inl hst)
      rw [hups2]
      exact ⟨by rw [hGC.2, upIntegrate_dashPhase, hD.1, hph],
        by rw [hGC.1, upIntegrate_status, hD.2, hst]⟩
  · intro p inp dt hst hsj hvx hog h20 h780
    have hups : updatePhysics inp dt p =
        upBoundRight (upBoundLeft (upGroundCollision (upIntegrate dt p))) := by
      unfold updatePhysics
      rw [upGravity_of_ground dt p hog, upSuperJump_of_not dt p hsj,
        upStatusSwitch_dashend inp dt p hst]
    have hIx : (upIntegrate dt p).x = p.x := by
      rw [upIntegrate_x, hvx, zero_mul, add_zero]
    have hb1 : 20 ≤ (upGroundCollision (upIntegrate dt p)).x := by
      rw [upGC_x, hIx]; exact h20
    have hb2 : (upGroundCollision (upIntegrate dt p)).x ≤ 780 := by
      rw [upGC_x, hIx]; exact h780
    rw [hups, upBoundLeft_of_ge _ hb1, upBoundRight_of_le _ hb2, upGC_x, hIx]

/-- Witness for C3: one physics step of the moving dash fixture (dash
just started, progress 0, easing 0.3), and one step of the DASHEND
fixture (no dash displacement). -/
theorem c3_dashEasedMotion_witness :
    ((|(updatePhysics inputNone (1/60) movingDashPlayer).x - movingDashPlayer.x| =
        movingDashPlayer.dashSpeed * (1/60) *
          (if movingDashPlayer.dashProgress / movingDashPlayer.dashDistance < 2/5 then
            3/10 + movingDashPlayer.dashProgress / movingDashPlayer.dashDistance / (2/5)
              * (7/10)
          else if 2/5 < movingDashPlayer.dashProgress / movingDashPlayer.dashDistance then
            1 - (movingDashPlayer.dashProgress / movingDashPlayer.dashDistance - 2/5)
              / (3/5) * (2/5)
          else 1)) ∧
      (updatePhysics inputNone (1/60) movingDashPlayer).dashProgress =
        movingDashPlayer.dashProgress + movingDashPlayer.dashSpeed * (1/60) ∧
      (movingDashPlayer.dashProgress + movingDashPlayer.dashSpeed * (1/60) ≥
          (85/100) * movingDashPlayer.dashDistance →
        (updatePhysics inputNone (1/60) movingDashPlayer).dashPhase = "end" ∧
        (updatePhysics inputNone (1/60) movingDashPlayer).status = STATUS.DASHEND) ∧
      (movingDashPlayer.dashProgress + movingDashPlayer.dashSpeed * (1/60) <
          (85/100) * movingDashPlayer.dashDistance →
        (updatePhysics inputNone (1/60) movingDashPlayer).dashPhase = "moving" ∧
        (updatePhysics inputNone (1/60) movingDashPlayer).status = STATUS.DASH)) ∧
    (updatePhysics inputNone (1/60) dashEndPlayer).x = dashEndPlayer.x :=
  ⟨c3_dashEasedMotion.1 movingDashPlayer inputNone (1/60) rfl rfl rfl rfl rfl rfl rfl
      (by norm_num [movingDashPlayer, Player.init])
      (by norm_num [movingDashPlayer, Player.init])
      (by norm_num [movingDashPlayer, Player.init])
      (by norm_num [movingDashPlayer, Player.init]) (by norm_num)
      (by norm_num [movingDashPlayer, Player.init, dashEasingFactor])
      (by norm_num [movingDashPlayer, Player.init, dashEasingFactor]),
   c3_dashEasedMotion.2 dashEndPlayer inputNone (1/60) rfl rfl rfl rfl
      (by norm_num [dashEndPlayer, Player.init])
      (by norm_num [dashEndPlayer, Player.init])⟩

end Megaz

namespace Megaz

/-- C8: `renderObjects` visits layers in ascending index order and, within
a layer, objects in insertion order, and only visible, non-destroyed
objects are visited: (i) a renderable object in an earlier layer is
visited before a renderable object in a later layer; (ii) within one
layer, a renderable object inserted earlier is visited before a
renderable one inserted later; (iii) every visited object is renderable;
(iv) concretely, inserting three objects declaring layers [2, 0, 2] all
succeed and the visit order is the layer-0 object first, then the two
layer-2 objects in insertion order. -/
theorem c8_renderOrdering :
    (∀ (m : ObjectSortManager) (a b : GObj)
        (pre mid post : List (List GObj)) (la lb : List GObj),
      m.initFlag = true →
      m.objectLayers = pre ++ la :: (mid ++ lb :: post) →
      a ∈ la → b ∈ lb → renderable a = true → renderable b = true →
      visitedBefore a b (renderOrder m)) ∧
    (∀ (m : ObjectSortManager) (a b : GObj)
        (pre post : List (List GObj)) (l₁ l₂ l₃ : List GObj),
      m.initFlag = true →
      m.objectLayers = pre ++ (l₁ ++ a :: (l₂ ++ b :: l₃)) :: post →
      renderable a = true → renderable b = true →
      visitedBefore a b (renderOrder m)) ∧
    (∀ (m : ObjectSortManager) (o : GObj),
      o ∈ renderOrder m → renderable o = true) ∧
    ((addSortedObject gobjA ObjectSortManager.mk0).2 = true ∧
     (addSortedObject gobjB (addSortedObject gobjA ObjectSortManager.mk0).1).2 = true ∧
     (addSortedObject gobjC (addSortedObject gobjB
        (addSortedObject gobjA ObjectSortManager.mk0).1).1).2 = true ∧
     renderOrder schedFixture = [gobjB, gobjA, gobjC]) := by
  refine ⟨?_, ?_, ?_, ?_⟩
  · intro m a b pre mid post la lb hinit hm ha hb hra hrb
    obtain ⟨s, t, hst⟩ := List.append_of_mem (List.mem_filter.mpr ⟨ha, hra⟩)
    obtain ⟨u, v, huv⟩ := List.append_of_mem (List.mem_filter.mpr ⟨hb, hrb⟩)
    refine ⟨(pre.map (fun l => l.filter renderable)).flatten ++ s,
      t ++ ((mid.map (fun l => l.filter renderable)).flatten ++ u),
      v ++ (post.map (fun l => l.filter renderable)).flatten, ?_⟩
    simp only [renderOrder, hinit, hm, Bool.not_true, Bool.false_eq_true,
      not_false_eq_true, if_false, ite_false, List.map_append, List.map_cons,
      List.flatten_append, List.flatten_cons]
    rw [hst, huv]
    simp [List.append_assoc]
  · intro m a b pre post l₁ l₂ l₃ hinit hm hra hrb
    refine ⟨(pre.map (fun l => l.filter renderable)).flatten ++ l₁.filter renderable,
      l₂.filter renderable,
      l₃.filter renderable ++ (post.map (fun l => l.filter renderable)).flatten, ?_⟩
    simp only [renderOrder, hinit, hm, Bool.not_true, Bool.false_eq_true,
      not_false_eq_true, if_false, ite_false, List.map_append, List.map_cons,
      List.flatten_append, List.flatten_cons]
    simp [List.filter_append, List.filter_cons, hra, hrb, List.append_assoc]
  · intro m o ho
    unfold renderOrder at ho
    split at ho
    · exact absurd ho (List.not_mem_nil o)
    · obtain ⟨l, hl, hol⟩ := List.mem_flatten.mp ho
      obtain ⟨l', _, rfl⟩ := List.mem_map.mp hl
      exact (List.mem_filter.mp hol).2
  · exact ⟨rfl, rfl, rfl, by decide⟩

/-- Witness for C8: the cross-layer part places the layer-0 object
`gobjB` before the layer-2 object `gobjA`, the within-layer part places
`gobjA` before `gobjC`, and the guard part certifies a visited object
renderable — all on the concrete three-object fixture. -/
theorem c8_renderOrdering_witness :
    visitedBefore gobjB gobjA (renderOrder schedFixture) ∧
    visitedBefore gobjA gobjC (renderOrder schedFixture) ∧
    renderable gobjB = true :=
  ⟨c8_renderOrdering.1 schedFixture gobjB gobjA [] [[]] (List.replicate 17 [])
      [gobjB] [gobjA, gobjC] (by decide) (by decide) (by decide) (by decide)
      (by decide) (by decide),
   c8_renderOrdering.2.1 schedFixture gobjA gobjC [[gobjB], []]
      (List.replicate 17 []) [] [] [] (by decide) (by decide) (by decide)
      (by decide),
   c8_renderOrdering.2.2.1 schedFixture gobjB (by decide)⟩

end Megaz
